import Mathlib

/-!
Verification of the wozardry disk-image library (wozardry.py, moofimage.py):
a shallow embedding of the WOZ1/WOZ2/MOOF container parser and serializer,
the META metadata model, the track-map operations and the 3.5-inch GCR
data-field decoder, together with theorems settling the specified claims.

Bytes are modelled as `List Nat` (each element a byte value 0..255), Python
strings as `List Nat` of Unicode code points, and Python exceptions as
`Except` errors.  Machine integers are plain `Nat` with explicit bounds or
`% 2^w` where the source relies on fixed-width behaviour.
-/

set_option maxRecDepth 6000

namespace Wozardry

/-- Little-endian integer from a byte list (`int.from_bytes(b, "little")`). -/
def fromUint : List Nat → Nat
  | [] => 0
  | b :: bs => b + 256 * fromUint bs

/-- Byte at index `i` of a payload (`data[i]`, callers guarantee the index
is in range; out of range reads 0 in this model). -/
def u8At (l : List Nat) (i : Nat) : Nat := l.getD i 0

/-- `from_uint16(data[i:i+2])`: a Python slice silently truncates, and
`int.from_bytes` of the short slice is still well defined. -/
def u16At (l : List Nat) (i : Nat) : Nat := fromUint ((l.drop i).take 2)

/-- `from_uint32(data[i:i+4])`. -/
def u32At (l : List Nat) (i : Nat) : Nat := fromUint ((l.drop i).take 4)

/-- `to_uint16`: 2-byte little-endian serialization (callers guarantee the
value fits; `int.to_bytes` raises OverflowError otherwise, which callers of
this model check separately). -/
def toUint16 (v : Nat) : List Nat := [v % 256, v / 256 % 256]

/-- `to_uint32`: 4-byte little-endian serialization. -/
def toUint32 (v : Nat) : List Nat :=
  [v % 256, v / 256 % 256, v / 65536 % 256, v / 16777216 % 256]

/-- One bit step of the reflected CRC-32 (polynomial 0xEDB88320),
as computed by `binascii.crc32`. -/
def crc32Step (c : Nat) : Nat :=
  if c % 2 = 1 then (c / 2) ^^^ 0xEDB88320 else c / 2

/-- The CRC-32 lookup table: entry `n` is the result of eight bit steps on
`n` (this is the table `binascii.crc32` is driven by). -/
def crc32Table : List Nat := (List.range 256).map fun n => crc32Step^[8] n

/-- Fold one byte into the running CRC-32 state (table-driven form of the
eight bit steps, exactly as `binascii.crc32` computes it). -/
def crc32Byte (c b : Nat) : Nat := (c >>> 8) ^^^ crc32Table.getD ((c ^^^ b) % 256) 0

/-- `binascii.crc32(bs) & 0xffffffff`. -/
def crc32 (bs : List Nat) : Nat := (bs.foldl crc32Byte 0xFFFFFFFF) ^^^ 0xFFFFFFFF

/-- Code points that Python's `str.strip()` removes (`str.isspace()`). -/
def pyIsSpace (c : Nat) : Bool :=
  (9 ≤ c && c ≤ 13) || (28 ≤ c && c ≤ 32) || c == 0x85 || c == 0xA0 ||
  c == 0x1680 || (0x2000 ≤ c && c ≤ 0x200A) || c == 0x2028 || c == 0x2029 ||
  c == 0x202F || c == 0x205F || c == 0x3000

/-- Python `str.strip()` on a code-point string. -/
def pyStrip (s : List Nat) : List Nat :=
  ((s.dropWhile pyIsSpace).reverse.dropWhile pyIsSpace).reverse

/-- Python `str.split(sep)` for a one-character separator: always returns at
least one (possibly empty) piece and keeps empty pieces. -/
def splitList (sep : Nat) : List Nat → List (List Nat)
  | [] => [[]]
  | c :: cs =>
    let rest := splitList sep cs
    if c = sep then [] :: rest
    else match rest with
      | [] => [[c]]
      | p :: ps => (c :: p) :: ps

/-- Python `sep.join(pieces)` for a one-character separator. -/
def joinList (sep : Nat) : List (List Nat) → List Nat
  | [] => []
  | [p] => p
  | p :: ps => p ++ sep :: joinList sep ps

/-- A Lean string literal as a Python-style code-point string. -/
def s2c (s : String) : List Nat := s.data.map Char.toNat

/-- Strict UTF-8 decoding of a byte list to code points, as performed by
`bytes.decode("UTF-8")`: rejects bad continuation bytes, overlong forms,
surrogates and values above 0x10FFFF. -/
def utf8Decode : List Nat → Option (List Nat)
  | [] => some []
  | b :: bs =>
    if b < 0x80 then (utf8Decode bs).map (b :: ·)
    else if b < 0xC2 then none
    else if b < 0xE0 then
      match bs with
      | b1 :: bs1 =>
        if 0x80 ≤ b1 ∧ b1 < 0xC0 then
          (utf8Decode bs1).map (((b - 0xC0) * 64 + (b1 - 0x80)) :: ·)
        else none
      | _ => none
    else if b < 0xF0 then
      match bs with
      | b1 :: b2 :: bs2 =>
        if 0x80 ≤ b1 ∧ b1 < 0xC0 ∧ 0x80 ≤ b2 ∧ b2 < 0xC0 then
          let c := (b - 0xE0) * 4096 + (b1 - 0x80) * 64 + (b2 - 0x80)
          if c < 0x800 ∨ (0xD800 ≤ c ∧ c ≤ 0xDFFF) then none
          else (utf8Decode bs2).map (c :: ·)
        else none
      | _ => none
    else if b < 0xF5 then
      match bs with
      | b1 :: b2 :: b3 :: bs3 =>
        if 0x80 ≤ b1 ∧ b1 < 0xC0 ∧ 0x80 ≤ b2 ∧ b2 < 0xC0 ∧ 0x80 ≤ b3 ∧ b3 < 0xC0 then
          let c := (b - 0xF0) * 262144 + (b1 - 0x80) * 4096 + (b2 - 0x80) * 64 + (b3 - 0x80)
          if c < 0x10000 ∨ 0x10FFFF < c then none
          else (utf8Decode bs3).map (c :: ·)
        else none
      | _ => none
    else none

/-- UTF-8 encoding of a code-point string (`str.encode("UTF-8")`); total, and
inverse to `utf8Decode` on valid code points. -/
def utf8Encode : List Nat → List Nat
  | [] => []
  | c :: cs =>
    (if c < 0x80 then [c]
     else if c < 0x800 then [0xC0 + c / 64, 0x80 + c % 64]
     else if c < 0x10000 then [0xE0 + c / 4096, 0x80 + c / 64 % 64, 0x80 + c % 64]
     else [0xF0 + c / 262144, 0x80 + c / 4096 % 64, 0x80 + c / 64 % 64, 0x80 + c % 64])
    ++ utf8Encode cs

/-- The error taxonomy of wozardry: one constructor per raised error class.
`pyError` stands for any non-Woz Python exception escaping the library
(IndexError, ValueError, OverflowError). -/
inductive WozErr
  | eof
  | headerNoWOZMarker
  | headerNoFF
  | headerNoLF
  | crc
  | infoBadChunkSize
  | infoMissingINFOChunk
  | infoBadVersion
  | infoBadDiskType
  | infoBadWriteProtected
  | infoBadSynchronized
  | infoBadCleaned
  | infoBadCreator
  | infoBadDiskSides
  | infoBadBootSectorFormat
  | infoBadOptimalBitTiming
  | infoBadCompatibleHardware
  | infoBadRAM
  | tmapBadChunkSize
  | tmapMissingTMAPChunk
  | tmapBadTRKS
  | trksFormat
  | trksBadStartingBlock
  | trksBadBlockCount
  | trksBadBitCount
  | fluxBadChunkSize
  | fluxBadTRKS
  | metaEncoding
  | metaNotEnoughTabs
  | metaTooManyTabs
  | metaDuplicateKey
  | metaBadValue
  | metaBadLanguage
  | metaBadRAM
  | metaBadMachine
  | pyError
  deriving Repr, DecidableEq

deriving instance DecidableEq for Except

/-- The three container variants (`kWOZ1`, `kWOZ2`, `kMOOF`). -/
inductive ImageType
  | woz1
  | woz2
  | moof
  deriving Repr, DecidableEq

/-- The magic chunk/file identifiers as byte lists. -/
def kWOZ1 : List Nat := [0x57, 0x4F, 0x5A, 0x31]

def kWOZ2 : List Nat := [0x57, 0x4F, 0x5A, 0x32]

def kMOOF : List Nat := [0x4D, 0x4F, 0x4F, 0x46]

def kINFO : List Nat := [0x49, 0x4E, 0x46, 0x4F]

def kTMAP : List Nat := [0x54, 0x4D, 0x41, 0x50]

def kTRKS : List Nat := [0x54, 0x52, 0x4B, 0x53]

def kWRIT : List Nat := [0x57, 0x52, 0x49, 0x54]

def kFLUX : List Nat := [0x46, 0x4C, 0x55, 0x58]

def kMETA : List Nat := [0x4D, 0x45, 0x54, 0x41]

/-- The serialized magic for an image type. -/
def ImageType.magic : ImageType → List Nat
  | .woz1 => kWOZ1
  | .woz2 => kWOZ2
  | .moof => kMOOF

/-- Valid metadata `language` values (`kLanguages`). -/
def kLanguagesC : List (List Nat) :=
  [s2c "English", s2c "Spanish", s2c "French", s2c "German", s2c "Chinese",
   s2c "Japanese", s2c "Italian", s2c "Dutch", s2c "Portuguese", s2c "Danish",
   s2c "Finnish", s2c "Norwegian", s2c "Swedish", s2c "Russian", s2c "Polish",
   s2c "Turkish", s2c "Arabic", s2c "Thai", s2c "Czech", s2c "Hungarian",
   s2c "Catalan", s2c "Croatian", s2c "Greek", s2c "Hebrew", s2c "Romanian",
   s2c "Slovak", s2c "Ukrainian", s2c "Indonesian", s2c "Malay",
   s2c "Vietnamese", s2c "Other"]

/-- Valid metadata `requires_ram` values (`kRequiresRAM`). -/
def kRequiresRAMC : List (List Nat) :=
  [s2c "16K", s2c "24K", s2c "32K", s2c "48K", s2c "64K", s2c "128K",
   s2c "256K", s2c "512K", s2c "768K", s2c "1M", s2c "1.25M", s2c "1.5M+",
   s2c "Unknown"]

/-- Valid machine models (`kRequiresMachine`), indexed by bit position in the
`compatible_hardware` bitfield. -/
def kRequiresMachineC : List (List Nat) :=
  [s2c "2", s2c "2+", s2c "2e", s2c "2c", s2c "2e+", s2c "2gs", s2c "2c+",
   s2c "3", s2c "3+"]

/-- Default creator string (`tDefaultCreator`). -/
def tDefaultCreatorC : List Nat := s2c "wozardry 2.2.0"

/-- A track: raw bitstream bytes plus the number of meaningful bits. -/
structure Track where
  raw_bytes : List Nat
  raw_count : Nat
  deriving Repr, DecidableEq

/-- The INFO chunk contents held in `self.info`.  `largest_track` is an
`Option` because the Python dict only gains that key when a WOZ2 INFO chunk
is loaded. -/
structure Info where
  version : Nat
  disk_type : Nat
  write_protected : Bool
  synchronized : Bool
  cleaned : Bool
  creator : List Nat
  disk_sides : Nat
  boot_sector_format : Nat
  optimal_bit_timing : Nat
  compatible_hardware : List (List Nat)
  required_ram : Nat
  largest_track : Option Nat
  deriving Repr, DecidableEq

/-- A metadata value: a single string, or a tuple of strings when the raw
value contained pipes (or was a lone empty string, by the `and/or` idiom in
`_load_meta`). -/
inductive MetaValue
  | single (s : List Nat)
  | multi (vs : List (List Nat))
  deriving Repr, DecidableEq

/-- The in-memory disk image produced by `load`. -/
structure DiskImage where
  image_type : ImageType
  info : Info
  tmap : List Nat
  tracks : List Track
  writ : Option (List Nat)
  flux : List Nat
  meta : List (List Nat × MetaValue)
  deriving Repr, DecidableEq

/-- `self.info` right after `reset()`. -/
def resetInfo : Info :=
  { version := 2
    disk_type := 1
    write_protected := false
    synchronized := false
    cleaned := false
    creator := tDefaultCreatorC
    disk_sides := 1
    boot_sector_format := 0
    optimal_bit_timing := 32
    compatible_hardware := []
    required_ram := 0
    largest_track := none }

/-- `validate_info_version` (the on-disk path passes an int). -/
def validateInfoVersion (ty : ImageType) (v : Nat) : Except WozErr Nat :=
  match ty with
  | .woz1 => if v ≠ 1 then .error .infoBadVersion else .ok v
  | .woz2 => if v < 2 then .error .infoBadVersion else .ok v
  | .moof => if v ≠ 1 then .error .infoBadVersion else .ok v

/-- `validate_info_disk_type`. -/
def validateInfoDiskType (ty : ImageType) (v : Nat) : Except WozErr Nat :=
  match ty with
  | .moof => if v = 0 ∨ v = 1 ∨ v = 2 ∨ v = 3 then .ok v else .error .infoBadDiskType
  | _ => if v = 1 ∨ v = 2 then .ok v else .error .infoBadDiskType

/-- `from_booleanish` on an integer value with a caller-chosen error. -/
def fromBooleanish (e : WozErr) (v : Nat) : Except WozErr Bool :=
  if v = 0 ∨ v = 1 then .ok (v = 1) else .error e

/-- `validate_info_write_protected`. -/
def validateInfoWriteProtected (v : Nat) : Except WozErr Bool :=
  fromBooleanish .infoBadWriteProtected v

/-- `validate_info_synchronized`. -/
def validateInfoSynchronized (v : Nat) : Except WozErr Bool :=
  fromBooleanish .infoBadSynchronized v

/-- `validate_info_cleaned`. -/
def validateInfoCleaned (v : Nat) : Except WozErr Bool :=
  fromBooleanish .infoBadCleaned v

/-- `validate_info_creator`: at most 32 bytes which must decode as UTF-8;
the decoded string is stripped. -/
def validateInfoCreator (bs : List Nat) : Except WozErr (List Nat) :=
  if bs.length > 32 then .error .infoBadCreator
  else match utf8Decode bs with
    | none => .error .infoBadCreator
    | some cs => .ok (pyStrip cs)

/-- `validate_info_disk_sides` (WOZ2; reads the already-set disk_type). -/
def validateInfoDiskSides (dt v : Nat) : Except WozErr Nat :=
  if dt = 1 then (if v ≠ 1 then .error .infoBadDiskSides else .ok v)
  else if dt = 2 then (if v = 1 ∨ v = 2 then .ok v else .error .infoBadDiskSides)
  else .ok v

/-- `validate_info_boot_sector_format` (WOZ2). -/
def validateInfoBootSectorFormat (dt v : Nat) : Except WozErr Nat :=
  if dt = 1 then
    (if v = 0 ∨ v = 1 ∨ v = 2 ∨ v = 3 then .ok v else .error .infoBadBootSectorFormat)
  else if dt = 2 then (if v ≠ 0 then .error .infoBadBootSectorFormat else .ok v)
  else .ok v

/-- `validate_info_optimal_bit_timing` (WOZ2 or MOOF). -/
def validateInfoOptimalBitTiming (ty : ImageType) (dt v : Nat) : Except WozErr Nat :=
  match ty with
  | .moof => if v = 8 ∨ v = 16 then .ok v else .error .infoBadOptimalBitTiming
  | _ =>
    if dt = 1 then
      (if 24 ≤ v ∧ v < 41 then .ok v else .error .infoBadOptimalBitTiming)
    else if dt = 2 then
      (if 8 ≤ v ∧ v < 25 then .ok v else .error .infoBadOptimalBitTiming)
    else .ok v

/-- `validate_info_compatible_hardware`: the 16-bit field is rejected when
`compatible_hardware >= 0x01FF`. -/
def validateInfoCompatibleHardware (v : Nat) : Except WozErr Nat :=
  if v ≥ 0x01FF then .error .infoBadCompatibleHardware else .ok v

/-- `validate_info_required_ram`: any integer is accepted. -/
def validateInfoRequiredRam (v : Nat) : Except WozErr Nat := .ok v

/-- Expansion of the `compatible_hardware` bitfield into machine names
(`_load_info`, offsets 0..8 in ascending order). -/
def compatibleHardwareList (bits : Nat) : List (List Nat) :=
  (List.range 9).filterMap fun offset =>
    if bits / 2 ^ offset % 2 = 1 then some (kRequiresMachineC.getD offset []) else none

/-- `_load_info` on the 60-byte INFO payload (the caller has already checked
the payload length). -/
def loadInfo (ty : ImageType) (info0 : Info) (data : List Nat) : Except WozErr Info := do
  let version ← validateInfoVersion ty (u8At data 0)
  let disk_type ← validateInfoDiskType ty (u8At data 1)
  let wp ← validateInfoWriteProtected (u8At data 2)
  let sync ← validateInfoSynchronized (u8At data 3)
  let info1 : Info ←
    match ty with
    | .moof => do
      let obt ← validateInfoOptimalBitTiming ty disk_type (u8At data 4)
      pure { info0 with version, disk_type, write_protected := wp,
                        synchronized := sync, optimal_bit_timing := obt }
    | _ => do
      let cleaned ← validateInfoCleaned (u8At data 4)
      pure { info0 with version, disk_type, write_protected := wp,
                        synchronized := sync, cleaned }
  let creator ← validateInfoCreator ((data.drop 5).take 32)
  let info2 := { info1 with creator }
  match ty with
  | .woz2 => do
    let disk_sides ← validateInfoDiskSides disk_type (u8At data 37)
    let boot ← validateInfoBootSectorFormat disk_type (u8At data 38)
    let obt ← validateInfoOptimalBitTiming ty disk_type (u8At data 39)
    let chw ← validateInfoCompatibleHardware (u16At data 40)
    let ram ← validateInfoRequiredRam (u16At data 42)
    pure { info2 with disk_sides, boot_sector_format := boot,
                      optimal_bit_timing := obt,
                      compatible_hardware := compatibleHardwareList chw,
                      required_ram := ram,
                      largest_track := some (u16At data 44) }
  | _ => pure info2

/-- The body of `_load_trks_v2` for descriptors `trk, trk+1, ...`; the fuel
argument `left` is `160 - trk` at every reachable call (the `for trk in
range(160)` loop), so the `left = 0` base case is exactly the loop bound. -/
def loadTrksV2Go (data : List Nat) : Nat → Nat → Except WozErr (List Track)
  | _, 0 => .ok []
  | trk, left + 1 =>
    let i := trk * 8
    let sb := u16At data i
    if sb = 1 ∨ sb = 2 then .error .trksBadStartingBlock
    else
      let bc := u16At data (i + 2)
      let cnt := u32At data (i + 4)
      if sb = 0 then
        if bc ≠ 0 then .error .trksBadBlockCount
        else if cnt ≠ 0 then .error .trksBadBitCount
        else .ok []
      else
        let idx := 1280 + (sb - 3) * 512
        if data.length ≤ idx then .error .trksBadStartingBlock
        else
          let raw := (data.drop idx).take (bc * 512)
          if raw.length ≠ bc * 512 then .error .trksBadBlockCount
          else (loadTrksV2Go data (trk + 1) left).map (⟨raw, cnt⟩ :: ·)

/-- `_load_trks_v2` resumed at descriptor `trk`: parse the remaining
descriptors of the 160-entry TRK table, returning the tracks they append. -/
def loadTrksV2From (data : List Nat) (trk : Nat) : Except WozErr (List Track) :=
  loadTrksV2Go data trk (160 - trk)

/-- `_load_trks_v2` from the first descriptor. -/
def loadTrksV2 (data : List Nat) : Except WozErr (List Track) :=
  loadTrksV2From data 0

/-- The loop of `_load_trks_v1`; the fuel argument is at least `data.length`
at every reachable call and each record consumes 6656 bytes, so the fuel
never runs out (`pyError` in the fuel-out branch is unreachable). -/
def loadTrksV1Go (fuel : Nat) (data : List Nat) : Except WozErr (List Track) :=
  match fuel with
  | 0 => if data.length = 0 then .ok [] else .error .pyError
  | fuel + 1 =>
    if data.length = 0 then .ok []
    else
      let raw := data.take 6646
      if raw.length ≠ 6646 then .error .eof
      else
        let busedRaw := (data.drop 6646).take 2
        if busedRaw.length ≠ 2 then .error .eof
        else if fromUint busedRaw > 6646 then .error .trksFormat
        else
          let countRaw := (data.drop 6648).take 2
          if countRaw.length ≠ 2 then .error .eof
          else
            let count := fromUint countRaw
            let spliceRaw := (data.drop 6650).take 2
            if spliceRaw.length ≠ 2 then .error .eof
            else
              let splice := fromUint spliceRaw
              if splice ≠ 0xFFFF ∧ splice > count then .error .trksFormat
              else if data.length < 6654 then .error .pyError
              else
                let spliceBits := u8At data 6653
                if splice ≠ 0xFFFF ∧ ¬(spliceBits = 8 ∨ spliceBits = 9 ∨ spliceBits = 10) then
                  .error .trksFormat
                else (loadTrksV1Go fuel (data.drop 6656)).map (⟨raw, count⟩ :: ·)

/-- `_load_trks_v1`: sequence of 6656-byte records; each contributes a Track
made of its first 6646 bytes and its bit count.  An IndexError reading the
splice bytes of a truncated record surfaces as `pyError`. -/
def loadTrksV1 (data : List Nat) : Except WozErr (List Track) :=
  loadTrksV1Go data.length data

/-- `validate_metadata_language`. -/
def validateMetadataLanguage (v : List Nat) : Except WozErr Unit :=
  if v ≠ [] ∧ v ∉ kLanguagesC then .error .metaBadLanguage else .ok ()

/-- `validate_metadata_requires_ram`. -/
def validateMetadataRequiresRam (v : List Nat) : Except WozErr Unit :=
  if v ≠ [] ∧ v ∉ kRequiresRAMC then .error .metaBadRAM else .ok ()

/-- `validate_metadata_requires_machine`. -/
def validateMetadataRequiresMachine (v : List Nat) : Except WozErr Unit :=
  if v ≠ [] ∧ v ∉ kRequiresMachineC then .error .metaBadMachine else .ok ()

/-- Run a validator over every value of a key (`list(map(...))`). -/
def validateAll (f : List Nat → Except WozErr Unit) : List (List Nat) → Except WozErr Unit
  | [] => .ok ()
  | v :: vs => do
    f v
    validateAll f vs

/-- The value stored for a metadata key: `len(values) == 1 and values[0] or
tuple(values)` — a lone non-empty value is stored bare, anything else
(several values, or a lone empty string which is falsy) as a tuple. -/
def metaStoreValue (values : List (List Nat)) : MetaValue :=
  match values with
  | [v] => if v ≠ [] then .single v else .multi values
  | _ => .multi values

/-- Process the decoded META lines in order, accumulating `self.meta`. -/
def loadMetaLines (meta0 : List (List Nat × MetaValue)) :
    List (List Nat) → Except WozErr (List (List Nat × MetaValue))
  | [] => .ok meta0
  | line :: rest =>
    if line = [] then loadMetaLines meta0 rest
    else
      let columns := splitList 9 line
      if columns.length < 2 then .error .metaNotEnoughTabs
      else if columns.length > 2 then .error .metaTooManyTabs
      else
        let key := columns.getD 0 []
        let valueRaw := columns.getD 1 []
        if (meta0.map Prod.fst).contains key then .error .metaDuplicateKey
        else
          let values := splitList 124 valueRaw
          let check : Except WozErr Unit :=
            if key = s2c "language" then validateAll validateMetadataLanguage values
            else if key = s2c "requires_ram" then validateAll validateMetadataRequiresRam values
            else if key = s2c "requires_machine" then validateAll validateMetadataRequiresMachine values
            else .ok ()
          match check with
          | .error e => .error e
          | .ok () => loadMetaLines (meta0 ++ [(key, metaStoreValue values)]) rest

/-- `_load_meta`: UTF-8 decode the payload then process its lines. -/
def loadMeta (meta0 : List (List Nat × MetaValue)) (payload : List Nat) :
    Except WozErr (List (List Nat × MetaValue)) :=
  match utf8Decode payload with
  | none => .error .metaEncoding
  | some s => loadMetaLines meta0 (splitList 10 s)

/-- The mutable state threaded through the chunk loop of `load`. -/
structure LoadState where
  ty : ImageType
  info : Info
  seenInfo : Bool
  seenTmap : Bool
  tmap : List Nat
  tracks : List Track
  writ : Option (List Nat)
  flux : List Nat
  meta : List (List Nat × MetaValue)
  deriving Repr, DecidableEq

/-- The state right after `reset()` and `_load_header`. -/
def initState (ty : ImageType) : LoadState :=
  { ty
    info := resetInfo
    seenInfo := false
    seenTmap := false
    tmap := List.replicate 160 0xFF
    tracks := []
    writ := none
    flux := []
    meta := [] }

/-- `_load_header` on the 8 header bytes. -/
def loadHeader (data : List Nat) : Except WozErr ImageType :=
  let magic := data.take 4
  if magic = kWOZ1 ∨ magic = kWOZ2 ∨ magic = kMOOF then
    let ty : ImageType := if magic = kWOZ1 then .woz1 else if magic = kWOZ2 then .woz2 else .moof
    if u8At data 4 ≠ 0xFF then .error .headerNoFF
    else if (data.drop 5).take 3 ≠ [0x0A, 0x0D, 0x0A] then .error .headerNoLF
    else .ok ty
  else .error .headerNoWOZMarker

/-- `_load_trks`: dispatch on the image type, appending to the tracks already
loaded. -/
def loadTrks (st : LoadState) (payload : List Nat) : Except WozErr LoadState :=
  match st.ty with
  | .woz1 => (loadTrksV1 payload).map fun ts => { st with tracks := st.tracks ++ ts }
  | _ => (loadTrksV2 payload).map fun ts => { st with tracks := st.tracks ++ ts }

/-- The body of one iteration of the chunk loop in `load`: dispatch a chunk
(id, payload) against the current state, enforcing the INFO-first and
TMAP-before-data ordering rules. -/
def processChunk (cid : List Nat) (sz : Nat) (payload : List Nat) (st : LoadState) :
    Except WozErr LoadState :=
  if cid = kINFO then
    if sz ≠ 60 then .error .infoBadChunkSize
    else (loadInfo st.ty st.info payload).map fun i =>
      { st with info := i, seenInfo := true }
  else if st.seenInfo = false then .error .infoMissingINFOChunk
  else if cid = kTMAP then
    if sz ≠ 160 then .error .tmapBadChunkSize
    else .ok { st with tmap := payload, seenTmap := true }
  else if st.seenTmap = false then .error .tmapMissingTMAPChunk
  else if cid = kTRKS then loadTrks st payload
  else if cid = kFLUX then
    if sz ≠ 160 then .error .fluxBadChunkSize
    else .ok { st with flux := payload }
  else if cid = kWRIT then .ok { st with writ := some payload }
  else if cid = kMETA then (loadMeta st.meta payload).map fun m => { st with meta := m }
  else .ok st

/-- The chunk loop of `load`: read 4-byte id, 4-byte little-endian size and
the payload, dispatch, repeat until the input is exhausted.  The fuel is at
least `b.length` at every reachable call and each iteration consumes at
least 8 bytes, so the fuel-out branch (`pyError`) is unreachable. -/
def chunkLoopGo : Nat → List Nat → LoadState → Except WozErr LoadState
  | _, [], st => .ok st
  | 0, _ :: _, _ => .error .pyError
  | fuel + 1, x :: xs, st =>
    let b := x :: xs
    let cid := b.take 4
    if cid.length ≠ 4 then .error .eof
    else
      let szRaw := (b.drop 4).take 4
      if szRaw.length ≠ 4 then .error .eof
      else
        let sz := fromUint szRaw
        let payload := (b.drop 8).take sz
        if payload.length ≠ sz then .error .eof
        else
          match processChunk cid sz payload st with
          | .error e => .error e
          | .ok st' => chunkLoopGo fuel (b.drop (8 + sz)) st'

/-- The chunk loop, started with enough fuel for the whole input. -/
def chunkLoop (b : List Nat) (st : LoadState) : Except WozErr LoadState :=
  chunkLoopGo b.length b st

/-- The checks performed after the chunk loop: INFO and TMAP must have been
seen, and every non-0xFF TMAP/FLUX entry must index into `tracks`. -/
def postCheck (st : LoadState) : Except WozErr Unit :=
  if st.seenInfo = false then .error .infoMissingINFOChunk
  else if st.seenTmap = false then .error .tmapMissingTMAPChunk
  else if st.tmap.any fun trk => trk ≠ 0xFF ∧ trk ≥ st.tracks.length then
    .error .tmapBadTRKS
  else if st.flux.any fun trk => trk ≠ 0xFF ∧ trk ≥ st.tracks.length then
    .error .fluxBadTRKS
  else .ok ()

/-- Package the final loop state as a disk image. -/
def LoadState.toImage (st : LoadState) : DiskImage :=
  { image_type := st.ty
    info := st.info
    tmap := st.tmap
    tracks := st.tracks
    writ := st.writ
    flux := st.flux
    meta := st.meta }

/-- `WozDiskImage.load` on the full input byte string. -/
def load (b : List Nat) : Except WozErr DiskImage :=
  if (b.take 8).length ≠ 8 then .error .eof
  else
    match loadHeader (b.take 8) with
    | .error e => .error e
    | .ok ty =>
      if ((b.drop 8).take 4).length ≠ 4 then .error .eof
      else
        let crc := fromUint ((b.drop 8).take 4)
        match chunkLoop (b.drop 12) (initState ty) with
        | .error e => .error e
        | .ok st =>
          match postCheck st with
          | .error e => .error e
          | .ok _ =>
            if crc ≠ 0 ∧ crc32 (b.drop 12) ≠ crc then .error .crc
            else .ok st.toImage

/-- `kDefaultNibbleTranslationTable16`: the 6-and-2 nibble translation table
of `MoofRWTS`; `none` models a KeyError for a nibble outside the table. -/
def translate (n : Nat) : Option Nat :=
  [(0x96, 0x00), (0x97, 0x01), (0x9A, 0x02), (0x9B, 0x03), (0x9D, 0x04),
   (0x9E, 0x05), (0x9F, 0x06), (0xA6, 0x07), (0xA7, 0x08), (0xAB, 0x09),
   (0xAC, 0x0A), (0xAD, 0x0B), (0xAE, 0x0C), (0xAF, 0x0D), (0xB2, 0x0E),
   (0xB3, 0x0F), (0xB4, 0x10), (0xB5, 0x11), (0xB6, 0x12), (0xB7, 0x13),
   (0xB9, 0x14), (0xBA, 0x15), (0xBB, 0x16), (0xBC, 0x17), (0xBD, 0x18),
   (0xBE, 0x19), (0xBF, 0x1A), (0xCB, 0x1B), (0xCD, 0x1C), (0xCE, 0x1D),
   (0xCF, 0x1E), (0xD3, 0x1F), (0xD6, 0x20), (0xD7, 0x21), (0xD9, 0x22),
   (0xDA, 0x23), (0xDB, 0x24), (0xDC, 0x25), (0xDD, 0x26), (0xDE, 0x27),
   (0xDF, 0x28), (0xE5, 0x29), (0xE6, 0x2A), (0xE7, 0x2B), (0xE9, 0x2C),
   (0xEA, 0x2D), (0xEB, 0x2E), (0xEC, 0x2F), (0xED, 0x30), (0xEE, 0x31),
   (0xEF, 0x32), (0xF2, 0x33), (0xF3, 0x34), (0xF4, 0x35), (0xF5, 0x36),
   (0xF6, 0x37), (0xF7, 0x38), (0xF9, 0x39), (0xFA, 0x3A), (0xFB, 0x3B),
   (0xFC, 0x3C), (0xFD, 0x3D), (0xFE, 0x3E), (0xFF, 0x3F)].lookup n

/-- A 3.5-inch GCR data field as returned by `data_field_at_point`. -/
structure MoofDataField where
  valid : Bool
  sector_id : Nat
  tags : List Nat
  data : List Nat
  deriving Repr, DecidableEq

/-- The three running checksum bytes of `gcr_generator`. -/
structure Chk where
  c1 : Nat
  c2 : Nat
  c3 : Nat
  deriving Repr, DecidableEq

/-- First third of one `gcr_generator` iteration: rotate `c1`, decode `d0`,
fold it into `c3`. -/
def gcrStepA (s : Chk) (d0 : Nat) : Chk × Nat :=
  let c1a := (s.c1 % 256) * 2
  let c1b := if c1a > 0xFF then c1a - 0xFF else c1a
  let c3a := if c1a > 0xFF then s.c3 + 1 else s.c3
  let b0 := d0 ^^^ c1b
  (⟨c1b, s.c2, c3a + b0⟩, b0)

/-- Second third: normalize `c3`, decode `d1`, fold it into `c2`. -/
def gcrStepB (s : Chk) (d1 : Nat) : Chk × Nat :=
  let c3b := if s.c3 > 0xFF then s.c3 % 256 else s.c3
  let c2a := if s.c3 > 0xFF then s.c2 + 1 else s.c2
  let b1 := d1 ^^^ c3b
  (⟨s.c1, c2a + b1, c3b⟩, b1)

/-- Last third: normalize `c2`, decode `d2`, fold it into `c1`. -/
def gcrStepC (s : Chk) (d2 : Nat) : Chk × Nat :=
  let c2b := if s.c2 > 0xFF then s.c2 % 256 else s.c2
  let c1a := if s.c2 > 0xFF then s.c1 + 1 else s.c1
  let b2 := d2 ^^^ c2b
  (⟨c1a + b2, c2b, s.c3⟩, b2)

/-- One complete `gcr_generator` iteration over a byte triple. -/
def gcrFull (s : Chk) (g : Nat × Nat × Nat) : Chk × (Nat × Nat × Nat) :=
  let (s1, b0) := gcrStepA s g.1
  let (s2, b1) := gcrStepB s1 g.2.1
  let (s3, b2) := gcrStepC s2 g.2.2
  (s3, (b0, b1, b2))

/-- Run the three-way checksum decoder over a list of byte triples, returning
the final checksum state and the emitted plaintext bytes. -/
def gcrRun (s : Chk) : List (Nat × Nat × Nat) → Chk × List Nat
  | [] => (s, [])
  | g :: gs =>
    match gcrFull s g with
    | (s1, b0, b1, b2) =>
      match gcrRun s1 gs with
      | (sEnd, rest) => (sEnd, b0 :: b1 :: b2 :: rest)

/-- The final checksum state of the three-way decoder over a list of byte
triples, with the state kept in constructor form at every step. -/
def gcrChk : Chk → List (Nat × Nat × Nat) → Chk
  | s, [] => s
  | ⟨c1, c2, c3⟩, g :: gs =>
    match gcrFull ⟨c1, c2, c3⟩ g with
    | (s1, _) => gcrChk s1 gs

/-- Group i of 4 translated nibbles → one triple of encoded bytes
(`data_field_at_point`, 6-and-2 regrouping). -/
def gcrBytes (n : Nat × Nat × Nat × Nat) : Nat × Nat × Nat :=
  ((n.2.1 &&& 0x3F) ||| ((n.1 <<< 2) &&& 0xC0),
   (n.2.2.1 &&& 0x3F) ||| ((n.1 <<< 4) &&& 0xC0),
   (n.2.2.2 &&& 0x3F) ||| ((n.1 <<< 6) &&& 0xC0))

/-- The 175 groups of 4 data nibbles: `nibs` lists the translated nibbles in
consumption order, `nibs[0]` being the sector id. -/
def nibbleGroupsOf (nibs : List Nat) : List (Nat × Nat × Nat × Nat) :=
  (List.range 175).map fun j =>
    (nibs.getD (1 + 4 * j) 0, nibs.getD (2 + 4 * j) 0,
     nibs.getD (3 + 4 * j) 0, nibs.getD (4 + 4 * j) 0)

/-- The checksum state actually used by the validity test of
`data_field_at_point`: the generator is suspended after its 524th output, so
the 174 full groups are processed and only the first two bytes of the last
group (its third encoded byte is never consumed). -/
def chkAt524 (nibs : List Nat) : Chk :=
  let groups := nibbleGroupsOf nibs
  let sMid := (gcrRun ⟨0, 0, 0⟩ ((groups.take 174).map gcrBytes)).1
  let lastG := gcrBytes (groups.getD 174 (0, 0, 0, 0))
  (gcrStepB (gcrStepA sMid lastG.1).1 lastG.2.1).1

/-- `data_field_at_point`, computed from the list of 704 translated nibbles
consumed by the decode: sector id, 700 data nibbles, 3 checksum nibbles.
The 524 plaintext bytes are the outputs of the 174 full decoder iterations
plus the first two outputs of the last (suspended) iteration, and the
validity test uses the checksum state at that suspension point. -/
def dataFieldCompute (nibs : List Nat) : MoofDataField :=
  let groups := nibbleGroupsOf nibs
  let lastG := gcrBytes (groups.getD 174 (0, 0, 0, 0))
  match gcrRun ⟨0, 0, 0⟩ ((groups.take 174).map gcrBytes) with
  | (sMid, outs) =>
    match gcrStepA sMid lastG.1 with
    | (s1, b522) =>
      match gcrStepB s1 lastG.2.1 with
      | (s2, b523) =>
        let outsAll := outs ++ [b522, b523]
        let pack := ((s2.c1 &&& 0xC0) >>> 6) ||| ((s2.c2 &&& 0xC0) >>> 4) |||
          ((s2.c3 &&& 0xC0) >>> 2)
        let valid := (nibs.getD 700 0 == pack) &&
          (nibs.getD 701 0 == (s2.c3 &&& 0x3F)) &&
          (nibs.getD 702 0 == (s2.c2 &&& 0x3F)) &&
          (nibs.getD 703 0 == (s2.c1 &&& 0x3F))
        ⟨valid, nibs.getD 0 0, outsAll.take 12, (outsAll.drop 12).take 512⟩

/-- `data_field_at_point` over a stream of raw disk nibbles `g` (as produced
by `track.nibble()`): every raw nibble is translated through the 6-and-2
table, `none` modelling the KeyError escape on an invalid nibble. -/
def dataFieldAtPoint (g : Nat → Nat) : Option MoofDataField :=
  ((List.range 704).mapM fun i => translate (g i)).map dataFieldCompute

/-- Validity of a data field as worded by the specification: checksums taken
after feeding all 525 encoded bytes, and the spec's bit-packing formula
`((c1>>6)&3) | ((c2>>4)&0x30) | ((c3>>2)&0xC0)`. -/
def specDataFieldValid (g : Nat → Nat) : Option Bool :=
  ((List.range 704).mapM fun i => translate (g i)).map fun nibs =>
    match gcrChk ⟨0, 0, 0⟩ ((nibbleGroupsOf nibs).map gcrBytes) with
    | ⟨c1, c2, c3⟩ =>
      let pack := ((c1 >>> 6) &&& 3) ||| ((c2 >>> 4) &&& 0x30) |||
        ((c3 >>> 2) &&& 0xC0)
      (nibs.getD 700 0 == pack) &&
      (nibs.getD 701 0 == (c3 &&& 0x3F)) &&
      (nibs.getD 702 0 == (c2 &&& 0x3F)) &&
      (nibs.getD 703 0 == (c1 &&& 0x3F))

/-- Modelled from the spec: `Track.bit()` is absent from the source (only
`Track.__init__` is), so the bitstream reader is taken from the spec's
words: bit `i` of the stream is bit `7 - (i % 8)` of byte `i / 8` of
`raw_bytes`, and the cursor wraps at `raw_count`. -/
def trackBitAt (t : Track) (i : Nat) : Nat :=
  if t.raw_count = 0 then 0
  else
    let j := i % t.raw_count
    t.raw_bytes.getD (j / 8) 0 / 2 ^ (7 - j % 8) % 2

/-- Read `k` further bits MSB-first into the accumulator `acc`. -/
def readBitsMSB (t : Track) : Nat → Nat → Nat → Nat
  | _, 0, acc => acc
  | pos, k + 1, acc => readBitsMSB t (pos + 1) k (acc * 2 + trackBitAt t pos)

/-- Modelled from the spec: `Track.nibble()` is absent from the source; per
the spec it skips zero bits until a 1 is observed (that 1 becomes the high
bit) then reads 7 more bits MSB-first.  `fuel` bounds the zero-skip so the
model is total; `none` means no 1 bit was found within `fuel` steps. -/
def nibbleFrom (t : Track) : Nat → Nat → Option (Nat × Nat)
  | 0, _ => none
  | fuel + 1, pos =>
    if trackBitAt t pos = 1 then some (readBitsMSB t (pos + 1) 7 1, pos + 8)
    else nibbleFrom t fuel (pos + 1)

/-- Decrement every entry of a track map that is `≥ i` and not the 0xFF
sentinel (the adjustment loops in `clean`). -/
def adjustMap (i : Nat) (m : List Nat) : List Nat :=
  m.map fun e => if e ≥ i ∧ e ≠ 0xFF then e - 1 else e

/-- The loop of `clean`: drop tracks referenced from neither map, shifting
later indices down.  Each iteration decreases `tracks.length - i`, so fuel
`tracks.length - i` suffices and the fuel-out branch is unreachable. -/
def cleanGo (fuel : Nat) (tracks : List Track) (tmap flux : List Nat) (i : Nat) :
    List Track × List Nat × List Nat :=
  match fuel with
  | 0 => (tracks, tmap, flux)
  | fuel + 1 =>
    if i < tracks.length then
      if i ∉ tmap ∧ i ∉ flux then
        cleanGo fuel (tracks.eraseIdx i) (adjustMap i tmap) (adjustMap i flux) i
      else cleanGo fuel tracks tmap flux (i + 1)
    else (tracks, tmap, flux)

/-- `WozDiskImage.clean`. -/
def clean (d : DiskImage) : DiskImage :=
  let r := cleanGo d.tracks.length d.tracks d.tmap d.flux 0
  { d with tracks := r.1, tmap := r.2.1, flux := r.2.2 }

/-- `WozDiskImage.remove`. -/
def remove (d : DiskImage) (hp : Nat) : Bool × DiskImage :=
  if d.tmap.getD hp 0 = 0xFF then (false, d)
  else (true, clean { d with tmap := d.tmap.set hp 0xFF })

/-- The `largest_track` block count computed by `_dump_info` (lines
512-518): 0 when there are no tracks, otherwise
`⌈⌈max raw_count / 8⌉ / 512⌉` over the tmap-referenced tracks.  `pyError`
models the IndexError on an out-of-range reference and the ValueError of
`max([])` when no track is referenced. -/
def largestTrackBlocks (d : DiskImage) : Except WozErr Nat :=
  if d.tracks.isEmpty then .ok 0
  else
    let refs := d.tmap.filter (· ≠ 0xFF)
    if refs.any (· ≥ d.tracks.length) then .error .pyError
    else
      match refs with
      | [] => .error .pyError
      | r :: rs =>
        let f := fun ti => (d.tracks.getD ti ⟨[], 0⟩).raw_count
        .ok ((((rs.map f).foldl max (f r) + 7) / 8 + 511) / 512)

/-- `to_uint8` with the OverflowError of `int.to_bytes` modelled. -/
def toUint8E (v : Nat) : Except WozErr (List Nat) :=
  if v < 256 then .ok [v] else .error .pyError

/-- `to_uint16` with OverflowError modelled. -/
def toUint16E (v : Nat) : Except WozErr (List Nat) :=
  if v < 65536 then .ok (toUint16 v) else .error .pyError

/-- `to_uint32` with OverflowError modelled. -/
def toUint32E (v : Nat) : Except WozErr (List Nat) :=
  if v < 4294967296 then .ok (toUint32 v) else .error .pyError

/-- `bytes(list_of_ints)`: raises ValueError when an entry is not a byte. -/
def bytesE (l : List Nat) : Except WozErr (List Nat) :=
  if l.all (· < 256) then .ok l else .error .pyError

/-- `validate_metadata_value`: no tab, linefeed or pipe inside a value. -/
def validateMetadataValue (v : List Nat) : Except WozErr Unit :=
  if 9 ∈ v then .error .metaBadValue
  else if 10 ∈ v then .error .metaBadValue
  else if 124 ∈ v then .error .metaBadValue
  else .ok ()

/-- The values of a metadata entry as a list (`[value]` for a bare string). -/
def metaValueList : MetaValue → List (List Nat)
  | .single s => [s]
  | .multi vs => vs

/-- The validation pass of `_dump_meta` over all metadata entries. -/
def dumpMetaChecks : List (List Nat × MetaValue) → Except WozErr Unit
  | [] => .ok ()
  | (k, mv) :: rest => do
    validateAll validateMetadataValue (metaValueList mv)
    (if k = s2c "language" then validateAll validateMetadataLanguage (metaValueList mv)
     else if k = s2c "requires_ram" then validateAll validateMetadataRequiresRam (metaValueList mv)
     else if k = s2c "requires_machine" then
       validateAll validateMetadataRequiresMachine (metaValueList mv)
     else .ok ())
    dumpMetaChecks rest

/-- `_dump_meta`: nothing when the metadata is empty, else the META chunk
with tab/linefeed-joined UTF-8 lines and a trailing linefeed. -/
def dumpMeta (d : DiskImage) : Except WozErr (List Nat) :=
  if d.meta = [] then .ok []
  else do
    dumpMetaChecks d.meta
    let data := joinList 10 (d.meta.map fun km =>
      utf8Encode km.1 ++ [9] ++ utf8Encode (joinList 124 (metaValueList km.2))) ++ [10]
    let sz ← toUint32E data.length
    .ok (kMETA ++ sz ++ data)

/-- `_dump_tmap`. -/
def dumpTmap (d : DiskImage) : Except WozErr (List Nat) := do
  let body ← bytesE d.tmap
  .ok (kTMAP ++ toUint32 160 ++ body)

/-- `_dump_flux`: nothing when no flux map is present. -/
def dumpFlux (d : DiskImage) : Except WozErr (List Nat) :=
  if d.flux = [] then .ok []
  else do
    let body ← bytesE d.flux
    .ok (kFLUX ++ toUint32 160 ++ body)

/-- `_dump_writ`: nothing when `writ` is `None` or empty (falsy). -/
def dumpWrit (d : DiskImage) : Except WozErr (List Nat) :=
  match d.writ with
  | none => .ok []
  | some [] => .ok []
  | some w => do
    let sz ← toUint32E w.length
    .ok (kWRIT ++ sz ++ w)

/-- The per-track records of `_dump_trks_v1`. -/
def dumpTrksV1Go : List Track → Except WozErr (List Nat)
  | [] => .ok []
  | t :: ts => do
    let bu ← toUint16E t.raw_bytes.length
    let cnt ← toUint16E t.raw_count
    let rest ← dumpTrksV1Go ts
    .ok (t.raw_bytes ++ List.replicate (6646 - t.raw_bytes.length) 0 ++
         bu ++ cnt ++ [0xFF, 0xFF, 0xFF, 0xFF, 0, 0] ++ rest)

/-- `_dump_trks_v1`. -/
def dumpTrksV1D (d : DiskImage) : Except WozErr (List Nat) := do
  let body ← dumpTrksV1Go d.tracks
  let sz ← toUint32E (d.tracks.length * 6656)
  .ok (kTRKS ++ sz ++ body)

/-- The loop of `_dump_trks_v2`: build the descriptor table and the BITS
region, assigning starting blocks sequentially from 3. -/
def dumpTrksV2Go : List Track → Nat → Except WozErr (List Nat × List Nat)
  | [], _ => .ok ([], [])
  | t :: ts, startingBlock => do
    let padded := t.raw_bytes ++
      List.replicate ((512 - t.raw_bytes.length % 512) % 512) 0
    let sbRaw ← toUint16E startingBlock
    let blockSize := padded.length / 512
    let bsRaw ← toUint16E blockSize
    let cntRaw ← toUint32E t.raw_count
    let r ← dumpTrksV2Go ts (startingBlock + blockSize)
    .ok (sbRaw ++ bsRaw ++ cntRaw ++ r.1, padded ++ r.2)

/-- `_dump_trks_v2`: descriptor table (padded with zero descriptors to 160
entries) followed by the BITS region. -/
def dumpTrksV2D (d : DiskImage) : Except WozErr (List Nat) := do
  let r ← dumpTrksV2Go d.tracks 3
  let table := r.1 ++ List.replicate ((160 - d.tracks.length) * 8) 0
  let sz ← toUint32E (table.length + r.2.length)
  .ok (kTRKS ++ sz ++ table ++ r.2)

/-- `_dump_trks`. -/
def dumpTrks (d : DiskImage) : Except WozErr (List Nat) :=
  match d.image_type with
  | .woz1 => dumpTrksV1D d
  | _ => dumpTrksV2D d

/-- Re-encoding of the `compatible_hardware` list as a bitfield
(`_dump_info`, offsets 0..8). -/
def compatibleHardwareBits (lst : List (List Nat)) : Nat :=
  (List.range 9).foldl
    (fun acc o => if kRequiresMachineC.getD o [] ∈ lst then acc + 2 ^ o else acc) 0

/-- `encode_info_creator`: UTF-8 encode and pad with spaces to 32 bytes. -/
def encodeInfoCreator (creator : List Nat) : List Nat :=
  utf8Encode creator ++ List.replicate (32 - (utf8Encode creator).length) 0x20

/-- The `largest_track`/`flux_block`/`largest_flux_track` computation of
`_dump_info` (everything after the WOZ1 early return). -/
def dumpInfoLargest (d : DiskImage) (tmapTrksLen : Nat) :
    Except WozErr (List Nat × List Nat × List Nat) := do
  let largestBlockCount ← largestTrackBlocks d
  let largestTrackRaw ← toUint16E largestBlockCount
  let fbs ←
    if d.flux = [] then pure (0, 0)
    else
      let fblk := (tmapTrksLen + 511) / 512
      let refs := d.flux.filter (· ≠ 0xFF)
      if refs.any (· ≥ d.tracks.length) then .error .pyError
      else
        match refs with
        | [] => .error .pyError
        | r :: rs =>
          let f := fun ti => (d.tracks.getD ti ⟨[], 0⟩).raw_count
          pure (fblk, ((rs.map f).foldl max (f r) + 511) / 512)
  let fluxBlockRaw ← toUint16E fbs.1
  let largestFluxRaw ← toUint16E fbs.2
  .ok (largestTrackRaw, fluxBlockRaw, largestFluxRaw)

/-- `_dump_info`: the 68-byte INFO chunk (id, size and 60-byte payload),
re-running the field validators on the serialized bytes. -/
def dumpInfo (d : DiskImage) (tmapTrksLen : Nat) : Except WozErr (List Nat) := do
  let versionRaw ← toUint8E d.info.version
  let _ ← validateInfoVersion d.image_type (fromUint versionRaw)
  let diskTypeRaw ← toUint8E d.info.disk_type
  let _ ← validateInfoDiskType d.image_type (fromUint diskTypeRaw)
  let wpRaw ← toUint8E (cond d.info.write_protected 1 0)
  let _ ← validateInfoWriteProtected (fromUint wpRaw)
  let syncRaw ← toUint8E (cond d.info.synchronized 1 0)
  let _ ← validateInfoSynchronized (fromUint syncRaw)
  let byte4 ←
    match d.image_type with
    | .moof => do
      let r ← toUint8E d.info.optimal_bit_timing
      let _ ← validateInfoOptimalBitTiming d.image_type d.info.disk_type (fromUint r)
      pure r
    | _ => do
      let r ← toUint8E (cond d.info.cleaned 1 0)
      let _ ← validateInfoCleaned (fromUint r)
      pure r
  let creatorRaw := encodeInfoCreator d.info.creator
  let _ ← validateInfoCreator creatorRaw
  let head := kINFO ++ toUint32 60 ++ versionRaw ++ diskTypeRaw ++ wpRaw ++
    syncRaw ++ byte4 ++ creatorRaw
  if d.image_type = .woz1 then .ok (head ++ List.replicate 23 0)
  else do
    let r ← dumpInfoLargest d tmapTrksLen
    match d.image_type with
    | .moof =>
      let chunk := head ++ [0] ++ r.1 ++ r.2.1 ++ r.2.2
      .ok (chunk ++ List.replicate (68 - chunk.length) 0)
    | _ => do
      let dsRaw ← toUint8E d.info.disk_sides
      let _ ← validateInfoDiskSides d.info.disk_type (fromUint dsRaw)
      let bsfRaw ← toUint8E d.info.boot_sector_format
      let _ ← validateInfoBootSectorFormat d.info.disk_type (fromUint bsfRaw)
      let obtRaw ← toUint8E d.info.optimal_bit_timing
      let _ ← validateInfoOptimalBitTiming d.image_type d.info.disk_type (fromUint obtRaw)
      let chwRaw ← toUint16E (compatibleHardwareBits d.info.compatible_hardware)
      let ramRaw ← toUint16E d.info.required_ram
      let chunk := head ++ dsRaw ++ bsfRaw ++ obtRaw ++ chwRaw ++ ramRaw ++
        r.1 ++ r.2.1 ++ r.2.2
      .ok (chunk ++ List.replicate (68 - chunk.length) 0)

/-- `_dump_head`: magic bytes plus the CRC over the rest of the file. -/
def dumpHead (d : DiskImage) (crc : Nat) : List Nat :=
  d.image_type.magic ++ [0xFF, 0x0A, 0x0D, 0x0A] ++ toUint32 crc

/-- `WozDiskImage.dump`: serialize the image, with the CRC-32 of the body in
the header. -/
def dump (d : DiskImage) : Except WozErr (List Nat) := do
  let rawTmap ← dumpTmap d
  let rawTrks ← dumpTrks d
  let infoC ← dumpInfo d (rawTmap.length + rawTrks.length)
  let fluxC ← dumpFlux d
  let writC ← dumpWrit d
  let metaC ← dumpMeta d
  let body := infoC ++ rawTmap ++ rawTrks ++ fluxC ++ writC ++ metaC
  .ok (dumpHead d (crc32 body) ++ body)

/-! ### Concrete inputs used by witnesses and counterexamples -/

/-- A TRKS payload whose first descriptor has the reserved starting_block 1. -/
def trksSb1Data : List Nat := [1, 0]

/-- A TRKS payload with one used descriptor (starting_block 3, one block, bit
count 5) followed by 1272 filler bytes and the 512 payload bytes. -/
def trksOkData : List Nat :=
  [3, 0, 1, 0, 5, 0, 0, 0] ++ List.replicate 1272 0 ++ List.replicate 512 7

/-- 60-byte INFO payload of a minimal 5.25-inch WOZ2 image. -/
def infoPayloadMin : List Nat :=
  [2, 1, 0, 0, 0] ++ List.replicate 32 0x20 ++ [1, 0, 0x20, 0, 0] ++ List.replicate 18 0

/-- Chunk region (INFO then TMAP) of a minimal WOZ2 image. -/
def bodyMin : List Nat :=
  kINFO ++ toUint32 60 ++ infoPayloadMin ++ kTMAP ++ toUint32 160 ++ List.replicate 160 0xFF

/-- A minimal WOZ2 image with the given 4 CRC bytes at offset 8. -/
def imageMin (crcb : List Nat) : List Nat :=
  [0x57, 0x4F, 0x5A, 0x32, 0xFF, 0x0A, 0x0D, 0x0A] ++ crcb ++ bodyMin

/-- The parser state reached after loading the chunks of `bodyMin`. -/
def stateMin : LoadState :=
  ⟨.woz2, ⟨2, 1, false, false, false, [], 1, 0, 32, [], 0, some 0⟩,
   true, true, List.replicate 160 255, [], none, [], []⟩

/-- The raw-nibble stream (all `0x96`, translating to 0) used by witnesses of
the data-field decoder. -/
def okStream : Nat → Nat := fun _ => 0x96

/-- The translated nibbles of `okStream`. -/
def okNibs : List Nat := List.replicate 704 0

/-- A raw-nibble stream whose 700th data nibble and three checksum nibbles
are exactly the values the source accepts, exposing the difference between
the source's 524-byte checksum state and the spec's 525-byte state. -/
def cexStreamList : List Nat :=
  [0x96, 0xFF] ++ List.replicate 698 0x96 ++ [0xFA, 0xAE, 0x9A, 0x9E]

/-- `cexStreamList` as a stream. -/
def cexStream : Nat → Nat := fun i => cexStreamList.getD i 0x96

/-- Witness image for the `largest_track` computation: one track of 4097
bits referenced by the first tmap slot. -/
def imgC7 : DiskImage := ⟨.woz2, resetInfo, [0, 0xFF], [⟨[], 4097⟩], none, [], []⟩

/-- Witness track for the nibble contract: a lone 1 bit then zeros. -/
def trackC8 : Track := ⟨[0x80], 8⟩

/-- Witness image for `remove`: slot 0 empty, slot 1 mapping to track 0. -/
def imgC9 : DiskImage := ⟨.woz2, resetInfo, [255, 0], [⟨[7], 8⟩], none, [], []⟩

/-- INFO payload of the round-trip refutation input. -/
def cbInfoPayload : List Nat :=
  [2, 1, 0, 0, 0] ++ List.replicate 32 0x20 ++ [1, 0, 0x20, 0, 0, 0, 0, 1, 0] ++
    List.replicate 14 0

/-- The chunk region of `cbBytes`: INFO, TMAP (all 0xFF), TRKS (one track). -/
def cbBody : List Nat :=
  kINFO ++ (toUint32 60 ++ (cbInfoPayload ++
    (kTMAP ++ (toUint32 160 ++ (List.replicate 160 0xFF ++
      (kTRKS ++ (toUint32 1792 ++ (trksOkData ++ []))))))))

/-- Input of the round-trip refutation: a WOZ2 image (header CRC 0, so
unverified) with one stored track (starting_block 3, one block of 512 bytes,
bit count 5) that no TMAP slot references — every slot is 0xFF. `load`
accepts it, but `dump` dies computing `max()` over the empty list of
referenced raw counts. -/
def cbBytes : List Nat :=
  [0x57, 0x4F, 0x5A, 0x32, 0xFF, 0x0A, 0x0D, 0x0A] ++ ([0, 0, 0, 0] ++ cbBody)

/-- The image `load cbBytes` produces: one track, no TMAP reference. -/
def cbImage : DiskImage :=
  ⟨.woz2, ⟨2, 1, false, false, false, [], 1, 0, 32, [], 0, some 1⟩,
   List.replicate 160 255, [⟨List.replicate 512 7, 5⟩], none, [], []⟩

/-- The parser states after the INFO, TMAP and TRKS chunks of `cbBody`. -/
def cbState1 : LoadState :=
  ⟨.woz2, ⟨2, 1, false, false, false, [], 1, 0, 32, [], 0, some 1⟩,
   true, false, List.replicate 160 0xFF, [], none, [], []⟩

def cbState2 : LoadState :=
  ⟨.woz2, ⟨2, 1, false, false, false, [], 1, 0, 32, [], 0, some 1⟩,
   true, true, List.replicate 160 0xFF, [], none, [], []⟩

def cbState3 : LoadState :=
  ⟨.woz2, ⟨2, 1, false, false, false, [], 1, 0, 32, [], 0, some 1⟩,
   true, true, List.replicate 160 0xFF, [⟨List.replicate 512 7, 5⟩], none, [], []⟩

/-! ### Helper lemmas -/

theorem except_bind_ok {α β : Type} (x : α) (f : α → Except WozErr β) :
    (Except.ok x >>= f : Except WozErr β) = f x := rfl

theorem except_bind_err {α β : Type} (e : WozErr) (f : α → Except WozErr β) :
    (Except.error e >>= f : Except WozErr β) = Except.error e := rfl

theorem except_map_ok {α β : Type} (x : α) (f : α → β) :
    (Except.ok x : Except WozErr α).map f = Except.ok (f x) := rfl

theorem except_pure_eq {α : Type} (x : α) : (pure x : Except WozErr α) = Except.ok x := rfl

/-- `trackBitAt` only produces bits. -/
theorem trackBitAt_le_one (t : Track) (i : Nat) : trackBitAt t i ≤ 1 := by
  unfold trackBitAt
  split
  · exact Nat.zero_le 1
  · exact Nat.le_of_lt_succ (Nat.mod_lt _ (by norm_num))

/-- Reading `k` bits MSB-first lands in `[acc * 2^k, (acc+1) * 2^k)`. -/
theorem readBitsMSB_bounds (t : Track) :
    ∀ (k pos acc : Nat), acc * 2 ^ k ≤ readBitsMSB t pos k acc ∧
      readBitsMSB t pos k acc < (acc + 1) * 2 ^ k := by
  intro k
  induction k with
  | zero => intro pos acc; simp [readBitsMSB]
  | succ k ih =>
    intro pos acc
    have hb := trackBitAt_le_one t pos
    have h := ih (pos + 1) (acc * 2 + trackBitAt t pos)
    constructor
    · calc acc * 2 ^ (k + 1) = acc * 2 * 2 ^ k := by ring
        _ ≤ (acc * 2 + trackBitAt t pos) * 2 ^ k := by
            exact Nat.mul_le_mul_right _ (Nat.le_add_right _ _)
        _ ≤ readBitsMSB t pos (k + 1) acc := by
            simpa [readBitsMSB] using h.1
    · calc readBitsMSB t pos (k + 1) acc
          = readBitsMSB t (pos + 1) k (acc * 2 + trackBitAt t pos) := by simp [readBitsMSB]
        _ < (acc * 2 + trackBitAt t pos + 1) * 2 ^ k := h.2
        _ ≤ (acc * 2 + 2) * 2 ^ k := by
            exact Nat.mul_le_mul_right _ (by omega)
        _ = (acc + 1) * 2 ^ (k + 1) := by ring

/-- `foldl max` commutes with a max-distributing function. -/
theorem foldl_max_map (h : Nat → Nat) (hm : ∀ a b, h (max a b) = max (h a) (h b)) :
    ∀ (l : List Nat) (a : Nat), (l.map h).foldl max (h a) = h (l.foldl max a) := by
  intro l
  induction l with
  | nil => intro a; rfl
  | cons x l ih =>
    intro a
    simp only [List.map_cons, List.foldl_cons, ← hm]
    exact ih (max a x)

/-- The per-track block formula of `_dump_info` distributes over `max`. -/
theorem trackBlocks_max (a b : Nat) :
    ((max a b + 7) / 8 + 511) / 512 = max (((a + 7) / 8 + 511) / 512) (((b + 7) / 8 + 511) / 512) := by
  have hmono : ∀ x y : Nat, x ≤ y → ((x + 7) / 8 + 511) / 512 ≤ ((y + 7) / 8 + 511) / 512 := by
    intro x y hxy
    have h1 : (x + 7) / 8 ≤ (y + 7) / 8 := Nat.div_le_div_right (by omega)
    exact Nat.div_le_div_right (by omega)
  rcases Nat.le_total a b with hab | hba
  · rw [Nat.max_eq_right hab, Nat.max_eq_right (hmono a b hab)]
  · rw [Nat.max_eq_left hba, Nat.max_eq_left (hmono b a hba)]

/-! ### Claim theorems -/

/-- Claim C6 (code bug): `validate_info_compatible_hardware` must reject a
bitfield exactly when one of its 7 high bits is set, but the source tests
`>= 0x01FF`, so the value 0x01FF — whose 7 high bits are all zero, and whose
own error message says "7 high bits must be 0 but some were 1" — is
rejected.  Every value below 0x01FF is accepted, and values with a high bit
set (e.g. 0x0200) are rejected. -/
theorem compatible_hardware_off_by_one :
    validateInfoCompatibleHardware 0x01FF = .error .infoBadCompatibleHardware ∧
    (0x01FF : Nat) >>> 9 = 0 ∧
    ((List.range 0x01FF).all fun v => decide (validateInfoCompatibleHardware v = .ok v)) = true ∧
    validateInfoCompatibleHardware 0x0200 = .error .infoBadCompatibleHardware := by
  refine ⟨by decide, by decide, ?_, by decide⟩
  decide

/-- Claim C10: the META validators for the enumerated keys `language`,
`requires_ram` and `requires_machine` raise their respective error exactly
when the value is non-empty and not in the corresponding fixed table; in
particular a META line with an empty value is accepted by the load path for
each of these keys. -/
theorem meta_enum_validators :
    (∀ v, validateMetadataLanguage v = .error .metaBadLanguage ↔ v ≠ [] ∧ v ∉ kLanguagesC) ∧
    (∀ v, validateMetadataRequiresRam v = .error .metaBadRAM ↔ v ≠ [] ∧ v ∉ kRequiresRAMC) ∧
    (∀ v, validateMetadataRequiresMachine v = .error .metaBadMachine ↔
      v ≠ [] ∧ v ∉ kRequiresMachineC) ∧
    (∀ k, k ∈ [s2c "language", s2c "requires_ram", s2c "requires_machine"] →
      (loadMeta [] (k ++ [9, 10])).isOk = true) := by
  refine ⟨?_, ?_, ?_, ?_⟩
  · intro v; unfold validateMetadataLanguage; split <;> simp_all
  · intro v; unfold validateMetadataRequiresRam; split <;> simp_all
  · intro v; unfold validateMetadataRequiresMachine; split <;> simp_all
  · intro k hk
    fin_cases hk <;> decide

/-- Witness for C10 at concrete inputs: the Klingon language is non-empty
and absent from the table, so it is rejected; the empty-valued `language`
line is accepted. -/
theorem meta_enum_validators_witness :
    validateMetadataLanguage (s2c "Klingon") = .error .metaBadLanguage ∧
    (loadMeta [] (s2c "language" ++ [9, 10])).isOk = true := by
  constructor
  · exact (meta_enum_validators.1 (s2c "Klingon")).mpr ⟨by decide, by decide⟩
  · exact meta_enum_validators.2.2.2 (s2c "language") (by simp)

/-- Claim C9: `remove(half_phase)` returns False and leaves the image
(including tmap, flux and tracks) unchanged when the slot holds the 0xFF
sentinel, and otherwise writes 0xFF into the slot, runs `clean()` and
returns True. -/
theorem remove_effect (d : DiskImage) (hp : Nat) (_h : hp < d.tmap.length) :
    (d.tmap.getD hp 0 = 0xFF → remove d hp = (false, d)) ∧
    (d.tmap.getD hp 0 ≠ 0xFF →
      remove d hp = (true, clean { d with tmap := d.tmap.set hp 0xFF })) := by
  constructor <;> intro hv
  · unfold remove
    rw [hv]
    simp
  · unfold remove
    rw [if_neg hv]

/-- Witness for C9: slot 0 of `imgC9` is empty (False, image untouched),
slot 1 is mapped (True, track dropped by `clean`). -/
theorem remove_effect_witness :
    (0 < imgC9.tmap.length ∧ remove imgC9 0 = (false, imgC9)) ∧
    (1 < imgC9.tmap.length ∧
      remove imgC9 1 = (true, clean { imgC9 with tmap := imgC9.tmap.set 1 0xFF })) := by
  refine ⟨⟨by decide, ?_⟩, ⟨by decide, ?_⟩⟩
  · exact (remove_effect imgC9 0 (by decide)).1 (by decide)
  · exact (remove_effect imgC9 1 (by decide)).2 (by decide)

/-- Claim C8 (spec-modelled, `Track.nibble` is absent from the source):
whenever the nibble reader returns, the returned value has bit 7 set, i.e.
lies in `[0x80, 0xFF]`. -/
theorem nibble_high_bit (t : Track) (fuel pos v p : Nat)
    (h : nibbleFrom t fuel pos = some (v, p)) : 0x80 ≤ v ∧ v ≤ 0xFF := by
  induction fuel generalizing pos with
  | zero => simp [nibbleFrom] at h
  | succ fuel ih =>
    unfold nibbleFrom at h
    by_cases hb : trackBitAt t pos = 1
    · rw [if_pos hb] at h
      obtain ⟨hv, _⟩ := Prod.mk.injEq .. ▸ Option.some.injEq .. ▸ h
      have hbd := readBitsMSB_bounds t 7 (pos + 1) 1
      constructor
      · rw [← hv]; simpa using hbd.1
      · rw [← hv]
        have := hbd.2
        omega
    · rw [if_neg hb] at h
      exact ih (pos + 1) h

/-- Witness for C8: on a track whose first bit is 1, the nibble reader
returns 0x80. -/
theorem nibble_high_bit_witness :
    nibbleFrom trackC8 1 0 = some (0x80, 8) ∧ 0x80 ≤ 0x80 ∧ 0x80 ≤ 0xFF := by
  refine ⟨by decide, ?_⟩
  exact nibble_high_bit trackC8 1 0 0x80 8 (by decide)

/-- Claim C7: `_dump_info` computes the INFO `largest_track` field as the
maximum over the tmap-referenced tracks of `⌈⌈raw_count/8⌉/512⌉` blocks, and
as 0 when the image has no tracks.  (The hypothesis is the TMAP validity
invariant `load` establishes; with tracks present but none referenced the
source crashes on `max([])`, modelled by `pyError`.) -/
theorem largest_track_blocks_rule (d : DiskImage)
    (href : ∀ ti ∈ d.tmap, ti ≠ 0xFF → ti < d.tracks.length) :
    (d.tracks = [] → largestTrackBlocks d = .ok 0) ∧
    (d.tmap.filter (· ≠ 0xFF) ≠ [] →
      largestTrackBlocks d = .ok (((d.tmap.filter (· ≠ 0xFF)).map fun ti =>
        (((d.tracks.getD ti ⟨[], 0⟩).raw_count + 7) / 8 + 511) / 512).foldl max 0)) := by
  constructor
  · intro h
    unfold largestTrackBlocks
    rw [h]
    simp
  · intro hne
    obtain ⟨r, rs, hcons⟩ : ∃ r rs, d.tmap.filter (· ≠ 0xFF) = r :: rs := by
      cases h : d.tmap.filter (· ≠ 0xFF) with
      | nil => exact absurd h hne
      | cons a l => exact ⟨a, l, rfl⟩
    have hmem : ∀ ti ∈ d.tmap.filter (· ≠ 0xFF), ti < d.tracks.length := by
      intro ti hti
      have hm := List.mem_filter.mp hti
      exact href ti hm.1 (by simpa using hm.2)
    have htne : ¬d.tracks.isEmpty = true := by
      intro h0
      have hr := hmem r (by rw [hcons]; exact List.mem_cons_self ..)
      rw [List.isEmpty_iff.mp h0] at hr
      simp at hr
    unfold largestTrackBlocks
    rw [if_neg htne, hcons]
    rw [if_neg ?hany]
    case hany =>
      simp only [List.any_eq_true, not_exists, not_and]
      intro ti hti
      have := hmem ti (hcons ▸ hti)
      simp only [decide_eq_true_eq]
      omega
    simp only [List.map_cons, List.foldl_cons, Nat.zero_max]
    have hmm : (rs.map fun ti =>
        (((d.tracks.getD ti ⟨[], 0⟩).raw_count + 7) / 8 + 511) / 512) =
        (rs.map fun ti => (d.tracks.getD ti ⟨[], 0⟩).raw_count).map
          (fun v => ((v + 7) / 8 + 511) / 512) := by
      rw [List.map_map]
      rfl
    rw [hmm, foldl_max_map (fun v => ((v + 7) / 8 + 511) / 512) trackBlocks_max]

/-- Witness for C7: a single 4097-bit track referenced by tmap slot 0
occupies ⌈⌈4097/8⌉/512⌉ = 2 blocks. -/
theorem largest_track_blocks_rule_witness :
    (∀ ti ∈ imgC7.tmap, ti ≠ 0xFF → ti < imgC7.tracks.length) ∧
    imgC7.tmap.filter (· ≠ 0xFF) ≠ [] ∧
    largestTrackBlocks imgC7 = .ok 2 := by
  refine ⟨by decide, by decide, ?_⟩
  have h := (largest_track_blocks_rule imgC7 (by decide)).2 (by decide)
  rw [h]
  decide

/-- One unfolding of the `_load_trks_v2` descriptor loop at descriptor
`trk < 160`. -/
theorem loadTrksV2From_step (data : List Nat) (trk : Nat) (htrk : trk < 160) :
    loadTrksV2From data trk =
      (if u16At data (trk * 8) = 1 ∨ u16At data (trk * 8) = 2 then
        .error .trksBadStartingBlock
       else if u16At data (trk * 8) = 0 then
         if u16At data (trk * 8 + 2) ≠ 0 then .error .trksBadBlockCount
         else if u32At data (trk * 8 + 4) ≠ 0 then .error .trksBadBitCount
         else .ok []
       else
         if data.length ≤ 1280 + (u16At data (trk * 8) - 3) * 512 then
           .error .trksBadStartingBlock
         else if ((data.drop (1280 + (u16At data (trk * 8) - 3) * 512)).take
             (u16At data (trk * 8 + 2) * 512)).length ≠ u16At data (trk * 8 + 2) * 512 then
           .error .trksBadBlockCount
         else (loadTrksV2From data (trk + 1)).map
           (Track.mk ((data.drop (1280 + (u16At data (trk * 8) - 3) * 512)).take
             (u16At data (trk * 8 + 2) * 512)) (u32At data (trk * 8 + 4)) :: ·)) := by
  have h1 : 160 - trk = (159 - trk) + 1 := by omega
  have h2 : 159 - trk = 160 - (trk + 1) := by omega
  show loadTrksV2Go data trk (160 - trk) = _
  rw [h1]
  show loadTrksV2Go data trk ((159 - trk) + 1) = _
  rw [loadTrksV2Go, h2]
  rfl

/-- Claim C2: the V2 TRKS descriptor rules — starting_block 1 or 2 is
BadStartingBlock; starting_block 0 ends the table, with BadBlockCount /
BadBitCount when its counts are nonzero; a used descriptor takes exactly
`block_count*512` bytes at payload offset `1280 + (starting_block-3)*512`,
failing BadStartingBlock when the payload does not reach that offset and
BadBlockCount when fewer than `block_count*512` bytes are available. -/
theorem trks_v2_descriptor_rules (data : List Nat) (trk : Nat) (htrk : trk < 160) :
    (u16At data (trk * 8) = 1 ∨ u16At data (trk * 8) = 2 →
      loadTrksV2From data trk = .error .trksBadStartingBlock) ∧
    (u16At data (trk * 8) = 0 → u16At data (trk * 8 + 2) ≠ 0 →
      loadTrksV2From data trk = .error .trksBadBlockCount) ∧
    (u16At data (trk * 8) = 0 → u16At data (trk * 8 + 2) = 0 →
      u32At data (trk * 8 + 4) ≠ 0 → loadTrksV2From data trk = .error .trksBadBitCount) ∧
    (u16At data (trk * 8) = 0 → u16At data (trk * 8 + 2) = 0 →
      u32At data (trk * 8 + 4) = 0 → loadTrksV2From data trk = .ok []) ∧
    (3 ≤ u16At data (trk * 8) →
      data.length ≤ 1280 + (u16At data (trk * 8) - 3) * 512 →
      loadTrksV2From data trk = .error .trksBadStartingBlock) ∧
    (3 ≤ u16At data (trk * 8) →
      1280 + (u16At data (trk * 8) - 3) * 512 < data.length →
      data.length < 1280 + (u16At data (trk * 8) - 3) * 512 + u16At data (trk * 8 + 2) * 512 →
      loadTrksV2From data trk = .error .trksBadBlockCount) ∧
    (3 ≤ u16At data (trk * 8) →
      1280 + (u16At data (trk * 8) - 3) * 512 < data.length →
      1280 + (u16At data (trk * 8) - 3) * 512 + u16At data (trk * 8 + 2) * 512 ≤ data.length →
      loadTrksV2From data trk = (loadTrksV2From data (trk + 1)).map
        (Track.mk ((data.drop (1280 + (u16At data (trk * 8) - 3) * 512)).take
          (u16At data (trk * 8 + 2) * 512)) (u32At data (trk * 8 + 4)) :: ·)) := by
  have hstep := loadTrksV2From_step data trk htrk
  refine ⟨?_, ?_, ?_, ?_, ?_, ?_, ?_⟩
  · intro h
    rw [hstep, if_pos h]
  · intro h0 hbc
    rw [hstep, if_neg (by omega), if_pos h0, if_pos hbc]
  · intro h0 hbc hcnt
    rw [hstep, if_neg (by omega), if_pos h0, if_neg (by omega), if_pos hcnt]
  · intro h0 hbc hcnt
    rw [hstep, if_neg (by omega), if_pos h0, if_neg (by omega), if_neg (by omega)]
  · intro h3 hlen
    rw [hstep, if_neg (by omega), if_neg (by omega), if_pos hlen]
  · intro h3 hlen hshort
    rw [hstep, if_neg (by omega), if_neg (by omega), if_neg (by omega), if_pos ?hp]
    case hp =>
      simp only [List.length_take, List.length_drop]
      omega
  · intro h3 hlen hfull
    rw [hstep, if_neg (by omega), if_neg (by omega), if_neg (by omega), if_neg ?hp]
    case hp =>
      simp only [List.length_take, List.length_drop]
      omega

set_option maxRecDepth 16000 in
/-- Witness for C2: a descriptor with starting_block 1 is rejected, and a
well-formed used descriptor yields the 512 payload bytes at offset 1280
with its 32-bit bit count. -/
theorem trks_v2_descriptor_rules_witness :
    ((0 : Nat) < 160 ∧ loadTrksV2From trksSb1Data 0 = .error .trksBadStartingBlock) ∧
    loadTrksV2From trksOkData 0 =
      (loadTrksV2From trksOkData 1).map (Track.mk (List.replicate 512 7) 5 :: ·) := by
  constructor
  · exact ⟨by decide, (trks_v2_descriptor_rules trksSb1Data 0 (by decide)).1 (Or.inl (by decide))⟩
  · have h := (trks_v2_descriptor_rules trksOkData 0 (by decide)).2.2.2.2.2.2
      (by decide) (by decide) (by decide)
    rw [h]
    have h1 : (trksOkData.drop (1280 + (u16At trksOkData 0 - 3) * 512)).take
        (u16At trksOkData 2 * 512) = List.replicate 512 7 := by decide
    have h2 : u32At trksOkData 4 = 5 := by decide
    rw [h1, h2]

/-- One iteration of the chunk loop on a well-formed chunk at the head of
the input. -/
theorem chunkLoopGo_cons (fuel : Nat) (cid szb payload rest : List Nat) (st : LoadState)
    (hc : cid.length = 4) (hs : szb.length = 4) (hp : payload.length = fromUint szb) :
    chunkLoopGo (fuel + 1) (cid ++ (szb ++ (payload ++ rest))) st =
      match processChunk cid (fromUint szb) payload st with
      | .error e => .error e
      | .ok st' => chunkLoopGo fuel rest st' := by
  obtain ⟨c0, c1, c2, c3, hcid⟩ : ∃ a b c d, cid = [a, b, c, d] := by
    match cid, hc with
    | [a, b, c, d], _ => exact ⟨a, b, c, d, rfl⟩
  subst hcid
  have hX : ([c0, c1, c2, c3] ++ (szb ++ (payload ++ rest)))
      = c0 :: (c1 :: c2 :: c3 :: (szb ++ (payload ++ rest))) := rfl
  rw [hX, chunkLoopGo]
  have ht4 : (c0 :: c1 :: c2 :: c3 :: (szb ++ (payload ++ rest))).take 4 = [c0, c1, c2, c3] := by
    rfl
  have hd4 : (c0 :: c1 :: c2 :: c3 :: (szb ++ (payload ++ rest))).drop 4
      = szb ++ (payload ++ rest) := rfl
  have hd8 : (c0 :: c1 :: c2 :: c3 :: (szb ++ (payload ++ rest))).drop 8
      = payload ++ rest := by
    have h1 : (c0 :: c1 :: c2 :: c3 :: (szb ++ (payload ++ rest))).drop 8
        = (szb ++ (payload ++ rest)).drop 4 := rfl
    rw [h1, List.drop_left' hs]
  simp only [ht4, hd4, hd8, List.length_cons, List.length_nil]
  rw [if_neg (by norm_num)]
  rw [List.take_left' hs, if_neg (by simp [hs])]
  rw [List.take_left' hp, if_neg (by simp [hp])]
  have hdrest : (c0 :: c1 :: c2 :: c3 :: (szb ++ (payload ++ rest))).drop (8 + fromUint szb)
      = rest := by
    have e1 : 8 + fromUint szb = 4 + (4 + fromUint szb) := by omega
    have h1 : (c0 :: c1 :: c2 :: c3 :: (szb ++ (payload ++ rest))).drop (4 + (4 + fromUint szb))
        = (szb ++ (payload ++ rest)).drop (4 + fromUint szb) := by
      rw [← List.drop_drop]
      rfl
    rw [e1, h1, ← List.drop_drop, List.drop_left' hs, List.drop_left' hp]
  rw [hdrest]

/-- Fuel does not matter to `chunkLoopGo` as long as it covers the input
length. -/
theorem chunkLoopGo_fuel : ∀ (fuel fuel' : Nat) (b : List Nat) (st : LoadState),
    b.length ≤ fuel → b.length ≤ fuel' →
    chunkLoopGo fuel b st = chunkLoopGo fuel' b st := by
  intro fuel
  induction fuel using Nat.strong_induction_on with
  | _ fuel ih =>
    intro fuel' b st hf hf'
    cases b with
    | nil => cases fuel <;> cases fuel' <;> rfl
    | cons x xs =>
      cases fuel with
      | zero => simp at hf
      | succ f =>
        cases fuel' with
        | zero => simp at hf'
        | succ f' =>
          rw [chunkLoopGo, chunkLoopGo]
          dsimp only
          split_ifs
          · rfl
          · rfl
          · rfl
          cases processChunk ((x :: xs).take 4)
              (fromUint (((x :: xs).drop 4).take 4)) (((x :: xs).drop 8).take
                (fromUint (((x :: xs).drop 4).take 4))) st with
          | error e => rfl
          | ok st' =>
            simp only []
            apply ih f (by omega)
            · simp only [List.length_drop, List.length_cons] at hf ⊢
              omega
            · simp only [List.length_drop, List.length_cons] at hf' ⊢
              omega

/-- The chunk loop on a well-formed head chunk, at the `chunkLoop` level. -/
theorem chunkLoop_cons (cid szb payload rest : List Nat) (st : LoadState)
    (hc : cid.length = 4) (hs : szb.length = 4) (hp : payload.length = fromUint szb) :
    chunkLoop (cid ++ (szb ++ (payload ++ rest))) st =
      match processChunk cid (fromUint szb) payload st with
      | .error e => .error e
      | .ok st' => chunkLoop rest st' := by
  unfold chunkLoop
  have hlen : (cid ++ (szb ++ (payload ++ rest))).length
      = (7 + fromUint szb + rest.length) + 1 := by
    simp [List.length_append, hc, hs, hp]
    omega
  rw [hlen, chunkLoopGo_cons _ _ _ _ _ _ hc hs hp]
  cases processChunk cid (fromUint szb) payload st with
  | error e => rfl
  | ok st' =>
    simp only []
    exact chunkLoopGo_fuel _ _ rest st' (by omega) (le_refl _)

/-- `load` reduced to its stages when the header, chunk loop and post-checks
succeed: only the CRC test remains. -/
theorem load_unfold (b : List Nat) (ty : ImageType) (st : LoadState)
    (h8 : (b.take 8).length = 8)
    (hh : loadHeader (b.take 8) = .ok ty)
    (h4 : ((b.drop 8).take 4).length = 4)
    (hcl : chunkLoop (b.drop 12) (initState ty) = .ok st)
    (hpc : postCheck st = .ok ()) :
    load b = if fromUint ((b.drop 8).take 4) ≠ 0 ∧ crc32 (b.drop 12) ≠ fromUint ((b.drop 8).take 4)
      then .error .crc else .ok st.toImage := by
  unfold load
  simp only [h8, hh, h4, hcl, hpc, ne_eq, not_true_eq_false, if_false, ite_false,
    reduceIte]

/-- `load` fails with whatever error the chunk loop raises. -/
theorem load_error_of_chunkLoop (b : List Nat) (ty : ImageType) (e : WozErr)
    (h8 : (b.take 8).length = 8)
    (hh : loadHeader (b.take 8) = .ok ty)
    (h4 : ((b.drop 8).take 4).length = 4)
    (hcl : chunkLoop (b.drop 12) (initState ty) = .error e) :
    load b = .error e := by
  unfold load
  simp only [h8, hh, h4, hcl, ne_eq, not_true_eq_false, if_false, ite_false, reduceIte]

/-- `load` fails with whatever error the post-loop check raises. -/
theorem load_error_of_postCheck (b : List Nat) (ty : ImageType) (st : LoadState) (e : WozErr)
    (h8 : (b.take 8).length = 8)
    (hh : loadHeader (b.take 8) = .ok ty)
    (h4 : ((b.drop 8).take 4).length = 4)
    (hcl : chunkLoop (b.drop 12) (initState ty) = .ok st)
    (hpc : postCheck st = .error e) :
    load b = .error e := by
  unfold load
  simp only [h8, hh, h4, hcl, hpc, ne_eq, not_true_eq_false, if_false, ite_false, reduceIte]

/-- A complete chunk that is not INFO, processed before INFO was seen, fails
with MissingINFOChunk. -/
theorem processChunk_missing_info (cid : List Nat) (sz : Nat) (payload : List Nat)
    (st : LoadState) (hinfo : st.seenInfo = false) (hne : cid ≠ kINFO) :
    processChunk cid sz payload st = .error .infoMissingINFOChunk := by
  unfold processChunk
  rw [if_neg hne, if_pos hinfo]

/-- A complete chunk that is neither INFO nor TMAP, processed after INFO but
before TMAP, fails with MissingTMAPChunk. -/
theorem processChunk_missing_tmap (cid : List Nat) (sz : Nat) (payload : List Nat)
    (st : LoadState) (hinfo : st.seenInfo = true) (htm : st.seenTmap = false)
    (hnI : cid ≠ kINFO) (hnT : cid ≠ kTMAP) :
    processChunk cid sz payload st = .error .tmapMissingTMAPChunk := by
  unfold processChunk
  rw [if_neg hnI, if_neg (by simp [hinfo]), if_neg hnT, if_pos htm]

/-- A 60-byte INFO chunk is dispatched to `_load_info` and marks INFO as
seen. -/
theorem processChunk_info_ok (payload : List Nat) (st : LoadState) (info' : Info)
    (hli : loadInfo st.ty st.info payload = .ok info') :
    processChunk kINFO 60 payload st = .ok { st with info := info', seenInfo := true } := by
  unfold processChunk
  rw [if_pos rfl, if_neg (by norm_num), hli]
  rfl

/-- `postCheck` raises MissingINFOChunk when no INFO chunk was seen. -/
theorem postCheck_no_info (st : LoadState) (h : st.seenInfo = false) :
    postCheck st = .error .infoMissingINFOChunk := by
  unfold postCheck
  rw [if_pos h]

/-- `postCheck` raises MissingTMAPChunk when INFO was seen but TMAP was
not. -/
theorem postCheck_no_tmap (st : LoadState) (hi : st.seenInfo = true) (ht : st.seenTmap = false) :
    postCheck st = .error .tmapMissingTMAPChunk := by
  unfold postCheck
  rw [if_neg (by simp [hi]), if_pos ht]

set_option maxRecDepth 16000 in
theorem cb_info_step :
    processChunk kINFO (fromUint (toUint32 60)) cbInfoPayload (initState .woz2) =
      .ok cbState1 := by decide

theorem cb_tmap_step :
    processChunk kTMAP (fromUint (toUint32 160)) (List.replicate 160 0xFF) cbState1 =
      .ok cbState2 := by decide

set_option maxRecDepth 16000 in
set_option maxHeartbeats 1600000 in
theorem cb_trks_step :
    processChunk kTRKS (fromUint (toUint32 1792)) trksOkData cbState2 = .ok cbState3 := by decide

set_option maxRecDepth 16000 in
theorem cb_chunkLoop : chunkLoop cbBody (initState .woz2) = .ok cbState3 := by
  unfold cbBody
  rw [chunkLoop_cons kINFO (toUint32 60) cbInfoPayload
    (kTMAP ++ (toUint32 160 ++ (List.replicate 160 0xFF ++
      (kTRKS ++ (toUint32 1792 ++ (trksOkData ++ []))))))
    (initState .woz2) (by decide) (by decide) (by decide), cb_info_step]
  dsimp only
  rw [chunkLoop_cons kTMAP (toUint32 160) (List.replicate 160 0xFF)
    (kTRKS ++ (toUint32 1792 ++ (trksOkData ++ []))) cbState1
    (by decide) (by decide) (by decide), cb_tmap_step]
  dsimp only
  rw [chunkLoop_cons kTRKS (toUint32 1792) trksOkData [] cbState2
    (by decide) (by decide) (by decide), cb_trks_step]
  dsimp only
  rfl

set_option maxRecDepth 16000 in
theorem cb_load : load cbBytes = .ok cbImage := by
  have hd12 : cbBytes.drop 12 = cbBody := rfl
  have hload := load_unfold cbBytes .woz2 cbState3 (by decide) (by decide) (by decide)
    (by rw [hd12]; exact cb_chunkLoop) (by decide)
  rw [hload, if_neg]
  · rfl
  · intro hand
    exact hand.1 (by decide)

set_option maxHeartbeats 1600000 in
/-- Claim C1, refuted by a code bug: `load` accepts `cbBytes` (a WOZ2 image
holding one track that no TMAP slot references), but `dump` of the loaded
image fails — `_dump_info` computes `max()` of the empty sequence of
referenced raw counts (a ValueError, modelled as `pyError`) — so
`dump(load(b))` crashes instead of reproducing an image equal to
`load(b)`. -/
theorem roundtrip_code_bug :
    load cbBytes = .ok cbImage ∧ dump cbImage = .error .pyError :=
  ⟨cb_load, by decide⟩

/-- Claim C3: with the header, chunk loop and cross-checks all succeeding
(an otherwise well-formed image), a nonzero header CRC field makes `load`
succeed exactly when the CRC-32 of bytes 12..end equals the field, a
mismatch failing with the CRC error, while a zero CRC field disables the
verification. -/
theorem crc_verification (b : List Nat) (ty : ImageType) (st : LoadState)
    (h8 : (b.take 8).length = 8)
    (hh : loadHeader (b.take 8) = .ok ty)
    (h4 : ((b.drop 8).take 4).length = 4)
    (hcl : chunkLoop (b.drop 12) (initState ty) = .ok st)
    (hpc : postCheck st = .ok ()) :
    (fromUint ((b.drop 8).take 4) ≠ 0 →
      ((load b = .ok st.toImage ↔ crc32 (b.drop 12) = fromUint ((b.drop 8).take 4)) ∧
       (crc32 (b.drop 12) ≠ fromUint ((b.drop 8).take 4) → load b = .error .crc))) ∧
    (fromUint ((b.drop 8).take 4) = 0 → load b = .ok st.toImage) := by
  have hu := load_unfold b ty st h8 hh h4 hcl hpc
  constructor
  · intro hnz
    by_cases hc : crc32 (b.drop 12) = fromUint ((b.drop 8).take 4)
    · rw [if_neg (by simp [hc])] at hu
      exact ⟨by simp [hu, hc], fun hne => absurd hc hne⟩
    · rw [if_pos ⟨hnz, hc⟩] at hu
      refine ⟨?_, fun _ => hu⟩
      rw [hu]
      simp [hc]
  · intro hz
    rw [if_neg (by simp [hz])] at hu
    exact hu

/-- Witness for C3: the minimal WOZ2 image is accepted with the matching
CRC 1231762184, rejected on mismatch, and accepted with CRC 0. -/
theorem crc_verification_witness :
    fromUint (((imageMin (toUint32 1231762184)).drop 8).take 4) ≠ 0 ∧
    load (imageMin (toUint32 1231762184)) = .ok stateMin.toImage ∧
    load (imageMin (toUint32 99)) = .error .crc ∧
    load (imageMin (toUint32 0)) = .ok stateMin.toImage := by
  refine ⟨by decide, ?_, ?_, ?_⟩
  · exact ((crc_verification _ .woz2 stateMin (by decide) (by decide) (by decide) (by decide)
      (by decide)).1 (by decide)).1.mpr (by decide)
  · exact ((crc_verification _ .woz2 stateMin (by decide) (by decide) (by decide) (by decide)
      (by decide)).1 (by decide)).2 (by decide)
  · exact (crc_verification _ .woz2 stateMin (by decide) (by decide) (by decide) (by decide)
      (by decide)).2 (by decide)

/-- Claim C4: a complete non-INFO chunk before INFO fails the parse with
MissingINFOChunk; a complete TRKS/FLUX/WRIT/META chunk after INFO but before
TMAP fails with MissingTMAPChunk; and end of input without INFO (resp.
without TMAP) fails with the corresponding missing-chunk error. -/
theorem chunk_ordering :
    (∀ hdr crcb cid szb payload rest ty, hdr.length = 8 → loadHeader hdr = .ok ty →
      crcb.length = 4 → cid.length = 4 → cid ≠ kINFO → szb.length = 4 →
      payload.length = fromUint szb →
      load (hdr ++ (crcb ++ (cid ++ (szb ++ (payload ++ rest)))))
        = .error .infoMissingINFOChunk) ∧
    (∀ hdr crcb info60 cid szb payload rest ty info', hdr.length = 8 →
      loadHeader hdr = .ok ty → crcb.length = 4 → info60.length = 60 →
      loadInfo ty resetInfo info60 = .ok info' →
      cid ∈ [kTRKS, kFLUX, kWRIT, kMETA] → szb.length = 4 →
      payload.length = fromUint szb →
      load (hdr ++ (crcb ++ (kINFO ++ (toUint32 60 ++ (info60 ++
        (cid ++ (szb ++ (payload ++ rest)))))))) = .error .tmapMissingTMAPChunk) ∧
    (∀ hdr crcb ty, hdr.length = 8 → loadHeader hdr = .ok ty → crcb.length = 4 →
      load (hdr ++ crcb) = .error .infoMissingINFOChunk) ∧
    (∀ hdr crcb info60 ty info', hdr.length = 8 → loadHeader hdr = .ok ty →
      crcb.length = 4 → info60.length = 60 → loadInfo ty resetInfo info60 = .ok info' →
      load (hdr ++ (crcb ++ (kINFO ++ (toUint32 60 ++ info60))))
        = .error .tmapMissingTMAPChunk) := by
  have hdrop12 : ∀ (hdr crcb body : List Nat), hdr.length = 8 → crcb.length = 4 →
      (hdr ++ (crcb ++ body)).drop 12 = body := by
    intro hdr crcb body h8 h4
    rw [show (12 : Nat) = 8 + 4 from rfl, ← List.drop_drop, List.drop_left' h8,
      List.drop_left' h4]
  have htake8 : ∀ (hdr crcb body : List Nat), hdr.length = 8 →
      (hdr ++ (crcb ++ body)).take 8 = hdr := by
    intro hdr crcb body h8
    exact List.take_left' h8
  have htake4 : ∀ (hdr crcb body : List Nat), hdr.length = 8 → crcb.length = 4 →
      ((hdr ++ (crcb ++ body)).drop 8).take 4 = crcb := by
    intro hdr crcb body h8 h4
    rw [List.drop_left' h8, List.take_left' h4]
  refine ⟨?_, ?_, ?_, ?_⟩
  · intro hdr crcb cid szb payload rest ty h8 hh h4 hcid hne hszb hpl
    apply load_error_of_chunkLoop _ ty
    · rw [htake8 _ _ _ h8]; exact h8
    · rw [htake8 _ _ _ h8]; exact hh
    · rw [htake4 _ _ _ h8 h4, h4]
    · rw [hdrop12 _ _ _ h8 h4, chunkLoop_cons _ _ _ _ _ hcid hszb hpl,
        processChunk_missing_info _ _ _ _ rfl hne]
  · intro hdr crcb info60 cid szb payload rest ty info' h8 hh h4 h60 hinfo hmem hszb hpl
    apply load_error_of_chunkLoop _ ty
    · rw [htake8 _ _ _ h8, h8]
    · rw [htake8 _ _ _ h8]; exact hh
    · rw [htake4 _ _ _ h8 h4, h4]
    · rw [hdrop12 _ _ _ h8 h4]
      have h1 : chunkLoop (kINFO ++ (toUint32 60 ++ (info60 ++
          (cid ++ (szb ++ (payload ++ rest)))))) (initState ty) =
          chunkLoop (cid ++ (szb ++ (payload ++ rest)))
            { initState ty with info := info', seenInfo := true } := by
        rw [chunkLoop_cons kINFO (toUint32 60) info60 _ _ (by decide) (by decide)
          (by rw [h60]; decide)]
        rw [show fromUint (toUint32 60) = 60 from by decide]
        rw [processChunk_info_ok info60 (initState ty) info' hinfo]
      rw [h1, chunkLoop_cons _ _ _ _ _ (by fin_cases hmem <;> decide) hszb hpl]
      rw [processChunk_missing_tmap _ _ _ _ rfl rfl (by fin_cases hmem <;> decide)
        (by fin_cases hmem <;> decide)]
  · intro hdr crcb ty h8 hh h4
    apply load_error_of_postCheck _ ty (initState ty)
    · rw [List.take_left' h8, h8]
    · rw [List.take_left' h8]; exact hh
    · rw [List.drop_left' h8, ← h4, List.take_length, h4]
    · have hd : (hdr ++ crcb).drop 12 = [] := by
        rw [show (12 : Nat) = 8 + 4 from rfl, ← List.drop_drop, List.drop_left' h8,
          ← h4, List.drop_length]
      rw [hd]
      rfl
    · exact postCheck_no_info _ rfl
  · intro hdr crcb info60 ty info' h8 hh h4 h60 hinfo
    apply load_error_of_postCheck _ ty
      { initState ty with info := info', seenInfo := true }
    · rw [htake8 _ _ _ h8, h8]
    · rw [htake8 _ _ _ h8]; exact hh
    · rw [htake4 _ _ _ h8 h4, h4]
    · rw [hdrop12 _ _ _ h8 h4]
      have h1 : (kINFO ++ (toUint32 60 ++ info60)) = kINFO ++ (toUint32 60 ++ (info60 ++ [])) := by
        simp
      rw [h1, chunkLoop_cons kINFO (toUint32 60) info60 [] _ (by decide) (by decide)
        (by rw [h60]; decide)]
      rw [show fromUint (toUint32 60) = 60 from by decide]
      rw [processChunk_info_ok info60 (initState ty) info' hinfo]
      rfl
    · exact postCheck_no_tmap _ rfl rfl

/-- Witness for C4: a TMAP chunk first fails with MissingINFOChunk; a WRIT
chunk right after INFO fails with MissingTMAPChunk. -/
theorem chunk_ordering_witness :
    load ([0x57, 0x4F, 0x5A, 0x32, 0xFF, 0x0A, 0x0D, 0x0A] ++ ([0, 0, 0, 0] ++
      (kTMAP ++ (toUint32 160 ++ (List.replicate 160 0xFF ++ [])))))
      = .error .infoMissingINFOChunk ∧
    load ([0x57, 0x4F, 0x5A, 0x32, 0xFF, 0x0A, 0x0D, 0x0A] ++ ([0, 0, 0, 0] ++
      (kINFO ++ (toUint32 60 ++ (infoPayloadMin ++ (kWRIT ++ (toUint32 0 ++ ([] ++ []))))))))
      = .error .tmapMissingTMAPChunk := by
  constructor
  · exact chunk_ordering.1 [0x57, 0x4F, 0x5A, 0x32, 0xFF, 0x0A, 0x0D, 0x0A] [0, 0, 0, 0]
      kTMAP (toUint32 160) (List.replicate 160 0xFF) [] .woz2 (by decide) (by decide)
      (by decide) (by decide) (by decide) (by decide) (by decide)
  · exact chunk_ordering.2.1 [0x57, 0x4F, 0x5A, 0x32, 0xFF, 0x0A, 0x0D, 0x0A] [0, 0, 0, 0]
      infoPayloadMin kWRIT (toUint32 0) [] [] .woz2
      ⟨2, 1, false, false, false, [], 1, 0, 32, [], 0, some 0⟩ (by decide) (by decide)
      (by decide) (by decide) (by decide) (by simp) (by decide) (by decide)

/-- Each encoded byte produced by the 6-and-2 regrouping is below 256. -/
theorem gcrBytes_lt (n : Nat × Nat × Nat × Nat) :
    (gcrBytes n).1 < 256 ∧ (gcrBytes n).2.1 < 256 ∧ (gcrBytes n).2.2 < 256 := by
  refine ⟨?_, ?_, ?_⟩ <;>
    exact Nat.or_lt_two_pow (n := 8)
      (Nat.lt_of_le_of_lt Nat.and_le_right (by norm_num))
      (Nat.lt_of_le_of_lt Nat.and_le_right (by norm_num))

/-- XOR of two bytes is a byte. -/
theorem xor_byte_le (a b : Nat) (ha : a ≤ 255) (hb : b ≤ 255) : a ^^^ b ≤ 255 := by
  have := Nat.xor_lt_two_pow (n := 8) (show a < 2 ^ 8 by omega) (show b < 2 ^ 8 by omega)
  omega

/-- The rotated `c1` produced by the first decoder third is a byte. -/
theorem gcrStepA_c1_le (s : Chk) (d : Nat) : (gcrStepA s d).1.c1 ≤ 255 := by
  have h := Nat.mod_lt s.c1 (show 0 < 256 by norm_num)
  simp only [gcrStepA]
  split <;> omega

/-- The first decoder third leaves `c2` unchanged. -/
theorem gcrStepA_c2_eq (s : Chk) (d : Nat) : (gcrStepA s d).1.c2 = s.c2 := rfl

/-- The second decoder third leaves `c1` unchanged. -/
theorem gcrStepB_c1_eq (s : Chk) (d : Nat) : (gcrStepB s d).1.c1 = s.c1 := rfl

/-- The second decoder third normalizes `c3` to a byte. -/
theorem gcrStepB_c3_le (s : Chk) (d : Nat) : (gcrStepB s d).1.c3 ≤ 255 := by
  have h := Nat.mod_lt s.c3 (show 0 < 256 by norm_num)
  simp only [gcrStepB]
  split <;> omega

/-- After the second decoder third, `c2` is at most 511 when it entered as a
byte and the data byte is a byte. -/
theorem gcrStepB_c2_le (s : Chk) (d : Nat) (h2 : s.c2 ≤ 255) (hd : d ≤ 255) :
    (gcrStepB s d).1.c2 ≤ 511 := by
  have hm := Nat.mod_lt s.c3 (show 0 < 256 by norm_num)
  simp only [gcrStepB]
  split
  · have := xor_byte_le d (s.c3 % 256) hd (by omega)
    omega
  · have := xor_byte_le d s.c3 hd (by omega)
    omega

/-- The third decoder third normalizes `c2` to a byte. -/
theorem gcrStepC_c2_le (s : Chk) (d : Nat) : (gcrStepC s d).1.c2 ≤ 255 := by
  have h := Nat.mod_lt s.c2 (show 0 < 256 by norm_num)
  simp only [gcrStepC]
  split <;> omega

/-- The third decoder third leaves `c3` unchanged. -/
theorem gcrStepC_c3_eq (s : Chk) (d : Nat) : (gcrStepC s d).1.c3 = s.c3 := rfl

/-- After any full decoder iteration, `c2` and `c3` are bytes. -/
theorem gcrFull_c2_le (s : Chk) (g : Nat × Nat × Nat) : (gcrFull s g).1.c2 ≤ 255 :=
  gcrStepC_c2_le _ _

theorem gcrFull_c3_le (s : Chk) (g : Nat × Nat × Nat) : (gcrFull s g).1.c3 ≤ 255 := by
  show (gcrStepC _ _).1.c3 ≤ 255
  rw [gcrStepC_c3_eq]
  exact gcrStepB_c3_le _ _

/-- Along any decoder run from a state with byte-sized `c2` and `c3`, those
two checksums remain bytes. -/
theorem gcrRun_c2_c3 : ∀ (gs : List (Nat × Nat × Nat)) (s : Chk),
    s.c2 ≤ 255 → s.c3 ≤ 255 →
    (gcrRun s gs).1.c2 ≤ 255 ∧ (gcrRun s gs).1.c3 ≤ 255 := by
  intro gs
  induction gs with
  | nil => exact fun s h2 h3 => ⟨h2, h3⟩
  | cons g gs ih =>
    intro s _ _
    exact ih (gcrFull s g).1 (gcrFull_c2_le s g) (gcrFull_c3_le s g)

/-- Bounds on the checksum state at the 524-byte suspension point:
`c1 ≤ 255`, `c2 ≤ 511`, `c3 ≤ 255`. -/
theorem chkAt524_bounds (nibs : List Nat) :
    (chkAt524 nibs).c1 ≤ 255 ∧ (chkAt524 nibs).c2 ≤ 511 ∧ (chkAt524 nibs).c3 ≤ 255 := by
  have hmid := gcrRun_c2_c3 (((nibbleGroupsOf nibs).take 174).map gcrBytes) ⟨0, 0, 0⟩
    (by norm_num) (by norm_num)
  have hd1 := (gcrBytes_lt ((nibbleGroupsOf nibs).getD 174 (0, 0, 0, 0))).2.1
  unfold chkAt524
  refine ⟨?_, ?_, ?_⟩
  · rw [gcrStepB_c1_eq]
    exact gcrStepA_c1_le _ _
  · apply gcrStepB_c2_le
    · rw [gcrStepA_c2_eq]
      exact hmid.1
    · omega
  · exact gcrStepB_c3_le _ _

theorem mask_shift_c1 : ∀ x < 256, (x &&& 0xC0) >>> 6 = (x >>> 6) &&& 3 := by decide

theorem mask_shift_c2 : ∀ x < 512, (x &&& 0xC0) >>> 4 = (x >>> 4) &&& 0x0C := by decide

theorem mask_shift_c3 : ∀ x < 256, (x &&& 0xC0) >>> 2 = (x >>> 2) &&& 0x30 := by decide

/-- The 704 translated nibbles consumed from the counterexample stream. -/
def cexNibs : List Nat := [0, 63] ++ List.replicate 696 0 ++ [0, 0, 58, 12, 2, 5]

/-- The 175 encoded byte triples of the counterexample stream, written in
staged chunks. -/
def cexGroups : List (Nat × Nat × Nat) :=
  [(192, 192, 192)] ++ (List.replicate 58 (0, 0, 0) ++
    (List.replicate 58 (0, 0, 0) ++ (List.replicate 57 (0, 0, 0) ++ [(0, 0, 58)])))

/-- The checksum runner splits over list concatenation. -/
theorem gcrChk_append (xs ys : List (Nat × Nat × Nat)) (s : Chk) :
    gcrChk s (xs ++ ys) = gcrChk (gcrChk s xs) ys := by
  induction xs generalizing s with
  | nil => rfl
  | cons x xs ih =>
    cases s with
    | mk c1 c2 c3 =>
      show gcrChk (gcrFull ⟨c1, c2, c3⟩ x).1 (xs ++ ys) =
        gcrChk (gcrChk (gcrFull ⟨c1, c2, c3⟩ x).1 xs) ys
      exact ih _

/-- The state component of the full decoder run is the checksum runner. -/
theorem gcrRun_fst (l : List (Nat × Nat × Nat)) :
    ∀ s : Chk, (gcrRun s l).1 = gcrChk s l := by
  induction l with
  | nil => intro s; rfl
  | cons g gs ih =>
    intro s
    cases s with
    | mk c1 c2 c3 =>
      show (gcrRun (gcrFull ⟨c1, c2, c3⟩ g).1 gs).1 = gcrChk (gcrFull ⟨c1, c2, c3⟩ g).1 gs
      exact ih _

/-- `chkAt524` through the checksum runner. -/
theorem chkAt524_chk (nibs : List Nat) :
    chkAt524 nibs =
      (gcrStepB
        (gcrStepA (gcrChk ⟨0, 0, 0⟩ (((nibbleGroupsOf nibs).take 174).map gcrBytes))
          (gcrBytes ((nibbleGroupsOf nibs).getD 174 (0, 0, 0, 0))).1).1
        (gcrBytes ((nibbleGroupsOf nibs).getD 174 (0, 0, 0, 0))).2.1).1 := by
  simp only [chkAt524]
  rw [gcrRun_fst]

/-- The validity flag computed by the decoder, in terms of `chkAt524`. -/
theorem dataFieldCompute_valid (nibs : List Nat) :
    (dataFieldCompute nibs).valid =
      ((nibs.getD 700 0 == (((chkAt524 nibs).c1 &&& 0xC0) >>> 6) |||
          ((((chkAt524 nibs).c2 &&& 0xC0) >>> 4)) ||| (((chkAt524 nibs).c3 &&& 0xC0) >>> 2)) &&
       (nibs.getD 701 0 == ((chkAt524 nibs).c3 &&& 0x3F)) &&
       (nibs.getD 702 0 == ((chkAt524 nibs).c2 &&& 0x3F)) &&
       (nibs.getD 703 0 == ((chkAt524 nibs).c1 &&& 0x3F))) := by
  unfold dataFieldCompute chkAt524
  dsimp only

set_option maxHeartbeats 1600000 in
theorem cex_translates :
    ((List.range 704).mapM fun i => translate (cexStream i)) = some cexNibs := by decide

set_option maxHeartbeats 1600000 in
theorem cex_groups : (nibbleGroupsOf cexNibs).map gcrBytes = cexGroups := by decide

theorem cex_chk1 : gcrChk ⟨0, 0, 0⟩ [(192, 192, 192)] = ⟨192, 0, 192⟩ := by decide

theorem cex_chk2 :
    gcrChk ⟨192, 0, 192⟩ (List.replicate 58 (0, 0, 0)) = ⟨468, 214, 166⟩ := by decide

theorem cex_chk3 :
    gcrChk ⟨468, 214, 166⟩ (List.replicate 58 (0, 0, 0)) = ⟨185, 113, 40⟩ := by decide

theorem cex_chk4 :
    gcrChk ⟨185, 113, 40⟩ (List.replicate 57 (0, 0, 0)) = ⟨194, 182, 70⟩ := by decide

theorem cex_chk5 : gcrChk ⟨194, 182, 70⟩ [(0, 0, 58)] = ⟨318, 130, 204⟩ := by decide

set_option maxHeartbeats 1600000 in
theorem cex_take174 :
    (((nibbleGroupsOf cexNibs).take 174).map gcrBytes) =
      [(192, 192, 192)] ++ (List.replicate 58 (0, 0, 0) ++
        (List.replicate 58 (0, 0, 0) ++ List.replicate 57 (0, 0, 0))) := by decide

set_option maxHeartbeats 1600000 in
theorem cex_last :
    gcrBytes ((nibbleGroupsOf cexNibs).getD 174 (0, 0, 0, 0)) = (0, 0, 58) := by decide

theorem cex_chk524 : chkAt524 cexNibs = ⟨133, 386, 204⟩ := by
  rw [chkAt524_chk, cex_take174, cex_last, gcrChk_append, cex_chk1, gcrChk_append,
    cex_chk2, gcrChk_append, cex_chk3, cex_chk4]
  decide

/-- On the stream `cexStream` the source decoder reports a valid field. -/
theorem cexStream_code_valid :
    (dataFieldAtPoint cexStream).map MoofDataField.valid = some true := by
  have hfld : dataFieldAtPoint cexStream = some (dataFieldCompute cexNibs) := by
    unfold dataFieldAtPoint
    rw [cex_translates]
    rfl
  rw [hfld]
  simp only [Option.map_some']
  rw [dataFieldCompute_valid, cex_chk524]
  decide

set_option maxHeartbeats 1600000 in
/-- On the same stream the spec's validity condition evaluates to false. -/
theorem cexStream_spec_invalid : specDataFieldValid cexStream = some false := by
  unfold specDataFieldValid
  rw [cex_translates]
  simp only [Option.map_some']
  rw [cex_groups]
  unfold cexGroups
  rw [gcrChk_append, cex_chk1, gcrChk_append, cex_chk2, gcrChk_append, cex_chk3,
    gcrChk_append, cex_chk4, cex_chk5]
  decide

/-- Counterexample to claim C5 as stated: a data field the source marks
valid, while the spec's validity condition (checksums after feeding all 525
encoded bytes, packed as `((c1>>6)&3) | ((c2>>4)&0x30) | ((c3>>2)&0xC0)`)
evaluates to false on the same nibble stream. -/
theorem data_field_claim_counterexample :
    (dataFieldAtPoint cexStream).map MoofDataField.valid = some true ∧
    specDataFieldValid cexStream = some false :=
  ⟨cexStream_code_valid, cexStream_spec_invalid⟩

set_option maxHeartbeats 1600000 in
/-- Claim C5 (amended): the decoded data field is valid exactly when, with
`c1, c2, c3` the running checksums after the 524 consumed encoded bytes (the
525th is never consumed), the 700th translated data nibble equals
`((c1>>6)&3) | ((c2>>4)&0x0C) | ((c3>>2)&0x30)` and the next three
translated nibbles equal `c3&0x3F`, `c2&0x3F`, `c1&0x3F` in that order; on
any mismatch the field is still returned, with `valid = false`. -/
theorem data_field_valid_rule (g : Nat → Nat) (nibs : List Nat) (fld : MoofDataField)
    (hn : ((List.range 704).mapM fun i => translate (g i)) = some nibs)
    (hf : dataFieldAtPoint g = some fld) :
    fld.valid = true ↔
      (nibs.getD 700 0 = (((chkAt524 nibs).c1 >>> 6) &&& 3) |||
          (((chkAt524 nibs).c2 >>> 4) &&& 0x0C) ||| (((chkAt524 nibs).c3 >>> 2) &&& 0x30) ∧
       nibs.getD 701 0 = ((chkAt524 nibs).c3 &&& 0x3F) ∧
       nibs.getD 702 0 = ((chkAt524 nibs).c2 &&& 0x3F) ∧
       nibs.getD 703 0 = ((chkAt524 nibs).c1 &&& 0x3F)) := by
  have hfld : fld = dataFieldCompute nibs := by
    unfold dataFieldAtPoint at hf
    rw [hn] at hf
    exact (Option.some.injEq .. ▸ hf).symm
  have hb := chkAt524_bounds nibs
  have hvalid : fld.valid =
      ((nibs.getD 700 0 == (((chkAt524 nibs).c1 &&& 0xC0) >>> 6) |||
          ((((chkAt524 nibs).c2 &&& 0xC0) >>> 4)) ||| (((chkAt524 nibs).c3 &&& 0xC0) >>> 2)) &&
       (nibs.getD 701 0 == ((chkAt524 nibs).c3 &&& 0x3F)) &&
       (nibs.getD 702 0 == ((chkAt524 nibs).c2 &&& 0x3F)) &&
       (nibs.getD 703 0 == ((chkAt524 nibs).c1 &&& 0x3F))) := by
    rw [hfld]
    exact dataFieldCompute_valid nibs
  rw [hvalid, mask_shift_c1 _ (by omega), mask_shift_c2 _ (by omega), mask_shift_c3 _ (by omega)]
  simp only [Bool.and_eq_true, beq_iff_eq]
  tauto

/-- The all-zero stream translates cleanly to `okNibs`. -/
theorem okStream_translates :
    ((List.range 704).mapM fun i => translate (okStream i)) = some okNibs := by decide

/-- The all-zero stream decodes to the field computed from `okNibs`. -/
theorem okStream_decodes : dataFieldAtPoint okStream = some (dataFieldCompute okNibs) := by
  unfold dataFieldAtPoint
  rw [okStream_translates]
  rfl

/-- Witness for C5 (amended) at the all-zero nibble stream: decode succeeds
and the validity characterization holds. -/
theorem data_field_valid_rule_witness :
    ((List.range 704).mapM fun i => translate (okStream i)) = some okNibs ∧
    dataFieldAtPoint okStream = some (dataFieldCompute okNibs) ∧
    ((dataFieldCompute okNibs).valid = true ↔
      (okNibs.getD 700 0 = (((chkAt524 okNibs).c1 >>> 6) &&& 3) |||
          (((chkAt524 okNibs).c2 >>> 4) &&& 0x0C) ||| (((chkAt524 okNibs).c3 >>> 2) &&& 0x30) ∧
       okNibs.getD 701 0 = ((chkAt524 okNibs).c3 &&& 0x3F) ∧
       okNibs.getD 702 0 = ((chkAt524 okNibs).c2 &&& 0x3F) ∧
       okNibs.getD 703 0 = ((chkAt524 okNibs).c1 &&& 0x3F))) :=
  ⟨okStream_translates, okStream_decodes,
    data_field_valid_rule okStream okNibs (dataFieldCompute okNibs) okStream_translates
      okStream_decodes⟩

end Wozardry
